import Mathlib

/-!
# Contract reads: SAP API caller

A shallow embedding of `SAP_API_Caller/caller.go`.  The Go methods have side
effects (HTTP requests, publishing on a queue, logging) and may fault (index
out of range, nil dereference).  A call is therefore modelled as an `Exec`: the
list of observable events it produced, in order, together with how it ended.

The collaborators that are not part of `caller.go` (the HTTP client, the URL
parser of `net/url`, the converters of `SAP_API_Output_Formatter`, the
outputter) are fields of `World` and of `SAPAPICaller`.  They are total
functions: the answer to a request, a conversion or a `Send` is determined by
its arguments.  What a converter may itself write to the log it is handed is
not part of the trace.
-/

namespace sap_api_output_formatter

/-- Modelled from the spec: the record type `ContractCollection` is declared in
package `SAP_API_Output_Formatter`, which is not part of the sources.  The three
outbound-link fields are the ones `caller.go` reads; every other field of the
record is kept, by name, in `fields`. -/
structure ContractCollection where
  ToContractExternalPriceComponent : String
  ToContractItem : String
  ToContractParty : String
  fields : List (String × String)
deriving DecidableEq, Repr

/-- Modelled from the spec: the record type `ContractItemCollection` of package
`SAP_API_Output_Formatter` (not part of the sources), with the one link field
`caller.go` reads. -/
structure ContractItemCollection where
  ToContractItemExternalPriceComponent : String
  fields : List (String × String)
deriving DecidableEq, Repr

/-- Modelled from the spec: the record type `ToContractExternalPriceComponent`
of package `SAP_API_Output_Formatter` (not part of the sources); `caller.go`
reads none of its fields. -/
structure ToContractExternalPriceComponent where
  fields : List (String × String)
deriving DecidableEq, Repr

/-- Modelled from the spec: the record type `ToContractItem` of package
`SAP_API_Output_Formatter` (not part of the sources); `caller.go` reads none of
its fields. -/
structure ToContractItem where
  fields : List (String × String)
deriving DecidableEq, Repr

/-- Modelled from the spec: the record type `ToContractParty` of package
`SAP_API_Output_Formatter` (not part of the sources); `caller.go` reads none of
its fields. -/
structure ToContractParty where
  fields : List (String × String)
deriving DecidableEq, Repr

/-- Modelled from the spec: the record type
`ToContractItemExternalPriceComponent` of package `SAP_API_Output_Formatter`
(not part of the sources); `caller.go` reads none of its fields. -/
structure ToContractItemExternalPriceComponent where
  fields : List (String × String)
deriving DecidableEq, Repr

end sap_api_output_formatter

namespace sap_api_caller

/-! ## Library values: `fmt`, `net/url`, `net/http` -/

/-- The part of `fmt.Sprintf` the caller uses: a format whose only verb is `%s`,
applied to string operands.  Each `%s` is replaced by the next operand, inserted
as it is; a `%s` without operand prints `%!s(MISSING)`. -/
def sprintfAux : List Char → List String → List Char
  | '%' :: 's' :: rest, a :: args => a.data ++ sprintfAux rest args
  | '%' :: 's' :: rest, [] => "%!s(MISSING)".data ++ sprintfAux rest []
  | ch :: rest, args => ch :: sprintfAux rest args
  | [], _ => []

/-- The function `fmt.Sprintf(format, args...)` for `%s` formats. -/
def Sprintf (format : String) (args : List String) : String :=
  ⟨sprintfAux format.data args⟩

/-- The type `url.Values`: the parameters of a query, not yet percent-encoded,
as key and value pairs in the order they were added. -/
abbrev Values := List (String × String)

/-- The method `Values.Add(key, value)`: appends the value to the key. -/
def Values.Add (v : Values) (key value : String) : Values :=
  v ++ [(key, value)]

/-- The type `url.URL`: the URL string the request was made from, and its
encoded query. -/
structure URL where
  raw : String
  RawQuery : String
deriving DecidableEq, Repr

/-- The type `http.Header`, as the list of its entries. -/
abbrev Header := List (String × String)

/-- The bytes `net/textproto` accepts in a header key: letters, digits and the
token punctuation of RFC 7230. -/
def validHeaderFieldByte (ch : Char) : Bool :=
  ch.isAlphanum || "!#$%&'*+-.^_|~".data.contains ch || ch == Char.ofNat 96

/-- The loop of `textproto.CanonicalMIMEHeaderKey`: the first letter and every
letter after a hyphen in upper case, every other letter in lower case. -/
def canonicalMIMEHeaderKeyAux : Bool → List Char → List Char
  | _, [] => []
  | upper, ch :: rest =>
    (if upper then ch.toUpper else ch.toLower) ::
      canonicalMIMEHeaderKeyAux ((if upper then ch.toUpper else ch.toLower) == '-') rest

/-- The function `textproto.CanonicalMIMEHeaderKey`: a key with a byte that is
not accepted is returned as it is. -/
def CanonicalMIMEHeaderKey (s : String) : String :=
  if s.data.all validHeaderFieldByte then ⟨canonicalMIMEHeaderKeyAux true s.data⟩ else s

/-- The method `Header.Set(key, value)`: the key is put in canonical form and
the value replaces what the key held. -/
def Header.Set (h : Header) (key value : String) : Header :=
  h.filter (fun kv => kv.1 ≠ CanonicalMIMEHeaderKey key) ++ [(CanonicalMIMEHeaderKey key, value)]

/-- The type `http.Request`. -/
structure Request where
  Method : String
  URL : URL
  Header : Header
deriving DecidableEq, Repr

/-! ## Payloads and events -/

/-- The value stored under `"message"` in a payload: the converted result of one
fetch, of one of the six record types. -/
inductive Message where
  | ContractCollection (data : List sap_api_output_formatter.ContractCollection)
  | ContractItemCollection (data : List sap_api_output_formatter.ContractItemCollection)
  | ToContractExternalPriceComponent
      (data : List sap_api_output_formatter.ToContractExternalPriceComponent)
  | ToContractItem (data : List sap_api_output_formatter.ToContractItem)
  | ToContractParty (data : List sap_api_output_formatter.ToContractParty)
  | ToContractItemExternalPriceComponent
      (data : List sap_api_output_formatter.ToContractItemExternalPriceComponent)
deriving DecidableEq, Repr

/-- The map `{"message": ..., "function": ...}` handed to `Send`. -/
structure Payload where
  message : Message
  function : String
deriving DecidableEq, Repr

/-- What a call does that can be observed from outside, each with the error it
came back with (`none` for `nil`). -/
inductive Event where
  /-- The call `new(http.Client).Do(req)`. -/
  | httpDo (req : Request) (err : Option String)
  /-- A converter of `SAP_API_Output_Formatter`, by name. -/
  | convert (converter : String) (err : Option String)
  /-- The call `c.outputter.Send(sendQueue, payload)`. -/
  | send (sendQueue : String) (payload : Payload) (err : Option String)
  /-- The call `c.log.Error(err)`. -/
  | logError (err : String)
  /-- The call `c.log.Info(data)`. -/
  | logInfo (data : Message)
  /-- A handler is entered from `AsyncGetContract`. -/
  | call (fn : String) (arg : String)
  /-- The handler entered last has returned. -/
  | ret (fn : String)
  /-- The call `wg.Add(delta)`. -/
  | wgAdd (delta : Int)
  /-- The call `wg.Done()`. -/
  | wgDone
  /-- The call `wg.Wait()`. -/
  | wgWait
deriving DecidableEq, Repr

/-- How a call ends: it returns a value, it faults (a Go `panic`, which nothing
in `caller.go` recovers), or it waits forever. -/
inductive Res (α : Type) where
  | val (a : α)
  | panic (msg : String)
  | blocked
deriving DecidableEq, Repr

/-- A run of a piece of Go code: its events in order and how it ended. -/
structure Exec (α : Type) where
  trace : List Event
  res : Res α

/-- Sequencing: the second part runs only if the first returned. -/
def Exec.bind {α β : Type} (x : Exec α) (f : α → Exec β) : Exec β :=
  match x.res with
  | .val a => ⟨x.trace ++ (f a).trace, (f a).res⟩
  | .panic msg => ⟨x.trace, .panic msg⟩
  | .blocked => ⟨x.trace, .blocked⟩

instance : Monad Exec where
  pure a := ⟨[], .val a⟩
  bind := Exec.bind

/-- One observable event. -/
def emit (e : Event) : Exec Unit := ⟨[e], .val ()⟩

/-- A Go run-time panic. -/
def goPanic {α : Type} (msg : String) : Exec α := ⟨[], .panic msg⟩

/-- The Go expression `s[0]` on a slice: faults on an empty (or nil) slice. -/
def index0 {α : Type} (s : List α) : Exec α :=
  match s with
  | [] => goPanic "runtime error: index out of range [0] with length 0"
  | x :: _ => pure x

/-! ## The caller and its collaborators -/

/-- The interface `RMQOutputter`: `Send` returns an error or `nil`. -/
structure RMQOutputter where
  Send : String → Payload → Option String

/-- The struct `SAPAPICaller`.  Its logger is the `logError` and `logInfo`
events. -/
structure SAPAPICaller where
  baseURL : String
  apiKey : String
  outputQueues : List String
  outputter : RMQOutputter

/-- The collaborators outside `caller.go`.
* `Parse` is `net/url.Parse` as `http.NewRequest` calls it: `none` is a parse
  error;
* `Query` and `Encode` are `URL.Query` (decoding of a raw query) and
  `Values.Encode`;
* `Do` is `new(http.Client).Do(req)` followed by `ioutil.ReadAll` of the body:
  a transport error, or the bytes of the body (whatever the status code);
* the six converters of `SAP_API_Output_Formatter`. -/
structure World where
  Parse : String → Option URL
  Query : String → Values
  Encode : Values → String
  Do : Request → Except String (List Nat)
  ConvertToContractCollection :
    List Nat → Except String (List sap_api_output_formatter.ContractCollection)
  ConvertToContractItemCollection :
    List Nat → Except String (List sap_api_output_formatter.ContractItemCollection)
  ConvertToToContractExternalPriceComponent :
    List Nat → Except String (List sap_api_output_formatter.ToContractExternalPriceComponent)
  ConvertToToContractItem :
    List Nat → Except String (List sap_api_output_formatter.ToContractItem)
  ConvertToToContractParty :
    List Nat → Except String (List sap_api_output_formatter.ToContractParty)
  ConvertToToContractItemExternalPriceComponent :
    List Nat →
      Except String (List sap_api_output_formatter.ToContractItemExternalPriceComponent)

/-- The function `http.NewRequest(method, url, nil)` with its error dropped
(`req, _ := ...`): the request, or `none` for the nil pointer it returns when
the URL does not parse. -/
def NewRequest (w : World) (method url : String) : Option Request :=
  match w.Parse url with
  | none => none
  | some u => some { Method := method, URL := u, Header := [] }

/-- The call `new(http.Client).Do(req)`, with the body read. -/
def httpDo (w : World) (req : Request) : Exec (Except String (List Nat)) :=
  match w.Do req with
  | .error err => ⟨[Event.httpDo req (some err)], .val (.error err)⟩
  | .ok byteArray => ⟨[Event.httpDo req none], .val (.ok byteArray)⟩

/-- A converter call, recorded under the converter's name. -/
def runConvert {α : Type} (converter : String) (r : Except String α) :
    Exec (Except String α) :=
  match r with
  | .error err => ⟨[Event.convert converter (some err)], .val (.error err)⟩
  | .ok data => ⟨[Event.convert converter none], .val (.ok data)⟩

/-- The call `c.outputter.Send(c.outputQueues[0], payload)`: the index is
evaluated first. -/
def SAPAPICaller.send (c : SAPAPICaller) (payload : Payload) : Exec (Option String) := do
  let sendQueue ← index0 c.outputQueues
  let err := c.outputter.Send sendQueue payload
  emit (Event.send sendQueue payload err)
  pure err

/-- The method `setHeaderAPIKeyAccept`: faults on the nil request. -/
def SAPAPICaller.setHeaderAPIKeyAccept (c : SAPAPICaller) (req : Option Request) :
    Exec Request :=
  match req with
  | none => goPanic "runtime error: invalid memory address or nil pointer dereference"
  | some r =>
    pure { r with Header := (Header.Set r.Header "APIKey" c.apiKey).Set "Accept" "application/json" }

/-- The method `getQueryWithContractCollection`. -/
def SAPAPICaller.getQueryWithContractCollection (_c : SAPAPICaller) (w : World)
    (req : Request) (iD : String) : Request :=
  let params := w.Query req.URL.RawQuery
  let params := params.Add "$filter" (Sprintf "ID eq '%s'" [iD])
  { req with URL := { req.URL with RawQuery := w.Encode params } }

/-- The method `getQueryWithContractItemCollection`. -/
def SAPAPICaller.getQueryWithContractItemCollection (_c : SAPAPICaller) (w : World)
    (req : Request) (itemID : String) : Request :=
  let params := w.Query req.URL.RawQuery
  let params := params.Add "$filter" (Sprintf "ID eq '%s'" [itemID])
  { req with URL := { req.URL with RawQuery := w.Encode params } }

/-- The method `getQueryWithContractName`. -/
def SAPAPICaller.getQueryWithContractName (_c : SAPAPICaller) (w : World)
    (req : Request) (name : String) : Request :=
  let params := w.Query req.URL.RawQuery
  let params := params.Add "$filter" (Sprintf "substringof('%s', Name)" [name])
  { req with URL := { req.URL with RawQuery := w.Encode params } }

/-- The function `xerrors.Errorf(format, err)` with a format that ends in
`: %w`: the message is the format with the wrapped error's message in place of
the verb. -/
def Errorf (context err : String) : String :=
  context ++ ": " ++ err

/-! ## Fetches -/

/-- The method `callContractSrvAPIRequirementContractCollection`. -/
def SAPAPICaller.callContractSrvAPIRequirementContractCollection (c : SAPAPICaller)
    (w : World) (api iD : String) :
    Exec (Except String (List sap_api_output_formatter.ContractCollection)) := do
  let url := "/".intercalate [c.baseURL, "c4codataapi", api]
  let req := NewRequest w "GET" url
  let req ← c.setHeaderAPIKeyAccept req
  let req := c.getQueryWithContractCollection w req iD
  match ← httpDo w req with
  | .error err => pure (.error (Errorf "API request error" err))
  | .ok byteArray =>
    match ← runConvert "ConvertToContractCollection"
        (w.ConvertToContractCollection byteArray) with
    | .error err => pure (.error (Errorf "convert error" err))
    | .ok data => pure (.ok data)

/-- The method `callToContractExternalPriceComponent`. -/
def SAPAPICaller.callToContractExternalPriceComponent (c : SAPAPICaller) (w : World)
    (url : String) :
    Exec (Except String (List sap_api_output_formatter.ToContractExternalPriceComponent)) := do
  let req := NewRequest w "GET" url
  let req ← c.setHeaderAPIKeyAccept req
  match ← httpDo w req with
  | .error err => pure (.error (Errorf "API request error" err))
  | .ok byteArray =>
    match ← runConvert "ConvertToToContractExternalPriceComponent"
        (w.ConvertToToContractExternalPriceComponent byteArray) with
    | .error err => pure (.error (Errorf "convert error" err))
    | .ok data => pure (.ok data)

/-- The method `callToContractItem`. -/
def SAPAPICaller.callToContractItem (c : SAPAPICaller) (w : World) (url : String) :
    Exec (Except String (List sap_api_output_formatter.ToContractItem)) := do
  let req := NewRequest w "GET" url
  let req ← c.setHeaderAPIKeyAccept req
  match ← httpDo w req with
  | .error err => pure (.error (Errorf "API request error" err))
  | .ok byteArray =>
    match ← runConvert "ConvertToToContractItem" (w.ConvertToToContractItem byteArray) with
    | .error err => pure (.error (Errorf "convert error" err))
    | .ok data => pure (.ok data)

/-- The method `callToContractParty`. -/
def SAPAPICaller.callToContractParty (c : SAPAPICaller) (w : World) (url : String) :
    Exec (Except String (List sap_api_output_formatter.ToContractParty)) := do
  let req := NewRequest w "GET" url
  let req ← c.setHeaderAPIKeyAccept req
  match ← httpDo w req with
  | .error err => pure (.error (Errorf "API request error" err))
  | .ok byteArray =>
    match ← runConvert "ConvertToToContractParty" (w.ConvertToToContractParty byteArray) with
    | .error err => pure (.error (Errorf "convert error" err))
    | .ok data => pure (.ok data)

/-- The method `callContractSrvAPIRequirementContractItemCollection`. -/
def SAPAPICaller.callContractSrvAPIRequirementContractItemCollection (c : SAPAPICaller)
    (w : World) (api itemID : String) :
    Exec (Except String (List sap_api_output_formatter.ContractItemCollection)) := do
  let url := "/".intercalate [c.baseURL, "c4codataapi", api]
  let req := NewRequest w "GET" url
  let req ← c.setHeaderAPIKeyAccept req
  let req := c.getQueryWithContractItemCollection w req itemID
  match ← httpDo w req with
  | .error err => pure (.error (Errorf "API request error" err))
  | .ok byteArray =>
    match ← runConvert "ConvertToContractItemCollection"
        (w.ConvertToContractItemCollection byteArray) with
    | .error err => pure (.error (Errorf "convert error" err))
    | .ok data => pure (.ok data)

/-- The method `callToContractItemExternalPriceComponent`. -/
def SAPAPICaller.callToContractItemExternalPriceComponent (c : SAPAPICaller) (w : World)
    (url : String) :
    Exec (Except String
      (List sap_api_output_formatter.ToContractItemExternalPriceComponent)) := do
  let req := NewRequest w "GET" url
  let req ← c.setHeaderAPIKeyAccept req
  match ← httpDo w req with
  | .error err => pure (.error (Errorf "API request error" err))
  | .ok byteArray =>
    match ← runConvert "ConvertToToContractItemExternalPriceComponent"
        (w.ConvertToToContractItemExternalPriceComponent byteArray) with
    | .error err => pure (.error (Errorf "convert error" err))
    | .ok data => pure (.ok data)

/-- The method `callContractSrvAPIRequirementContractName`. -/
def SAPAPICaller.callContractSrvAPIRequirementContractName (c : SAPAPICaller)
    (w : World) (api name : String) :
    Exec (Except String (List sap_api_output_formatter.ContractCollection)) := do
  let url := "/".intercalate [c.baseURL, "c4codataapi", api]
  let req := NewRequest w "GET" url
  let req ← c.setHeaderAPIKeyAccept req
  let req := c.getQueryWithContractName w req name
  match ← httpDo w req with
  | .error err => pure (.error (Errorf "API request error" err))
  | .ok byteArray =>
    match ← runConvert "ConvertToContractCollection"
        (w.ConvertToContractCollection byteArray) with
    | .error err => pure (.error (Errorf "convert error" err))
    | .ok data => pure (.ok data)

/-! ## Handlers -/

/-- The method `ContractCollection`: the parent fetch by identifier, then
pricing, items and parties, each published as soon as it is converted.  A
failed step is logged and the handler returns. -/
def SAPAPICaller.ContractCollection (c : SAPAPICaller) (w : World) (iD : String) :
    Exec Unit := do
  match ← c.callContractSrvAPIRequirementContractCollection w "ContractCollectionData" iD with
  | .error err => emit (.logError err)
  | .ok contractCollectionData =>
    match ← c.send ⟨.ContractCollection contractCollectionData, "ContractCollectionData"⟩ with
    | some err => emit (.logError err)
    | none =>
      emit (.logInfo (.ContractCollection contractCollectionData))
      match ← c.callToContractExternalPriceComponent w
          (← index0 contractCollectionData).ToContractExternalPriceComponent with
      | .error err => emit (.logError err)
      | .ok contractExternalPriceComponentData =>
        match ← c.send ⟨.ToContractExternalPriceComponent contractExternalPriceComponentData,
            "ContractExternalPriceComponentData"⟩ with
        | some err => emit (.logError err)
        | none =>
          emit (.logInfo (.ToContractExternalPriceComponent contractExternalPriceComponentData))
          match ← c.callToContractItem w (← index0 contractCollectionData).ToContractItem with
          | .error err => emit (.logError err)
          | .ok contractItemData =>
            match ← c.send ⟨.ToContractItem contractItemData, "ContractItemData"⟩ with
            | some err => emit (.logError err)
            | none =>
              emit (.logInfo (.ToContractItem contractItemData))
              match ← c.callToContractParty w
                  (← index0 contractCollectionData).ToContractParty with
              | .error err => emit (.logError err)
              | .ok contractPartyData =>
                match ← c.send ⟨.ToContractParty contractPartyData, "ContractPartyData"⟩ with
                | some err => emit (.logError err)
                | none => emit (.logInfo (.ToContractParty contractPartyData))

/-- The method `ContractItemCollection`: the parent fetch by item identifier,
then pricing. -/
def SAPAPICaller.ContractItemCollection (c : SAPAPICaller) (w : World) (itemID : String) :
    Exec Unit := do
  match ← c.callContractSrvAPIRequirementContractItemCollection w
      "ContractItemCollectionData" itemID with
  | .error err => emit (.logError err)
  | .ok contractItemCollectionData =>
    match ← c.send ⟨.ContractItemCollection contractItemCollectionData,
        "ContractItemCollectionData"⟩ with
    | some err => emit (.logError err)
    | none =>
      emit (.logInfo (.ContractItemCollection contractItemCollectionData))
      match ← c.callToContractItemExternalPriceComponent w
          (← index0 contractItemCollectionData).ToContractItemExternalPriceComponent with
      | .error err => emit (.logError err)
      | .ok contractItemExternalPriceComponentData =>
        match ← c.send ⟨.ToContractItemExternalPriceComponent
            contractItemExternalPriceComponentData,
            "ContractItemExternalPriceComponentData"⟩ with
        | some err => emit (.logError err)
        | none =>
          emit (.logInfo
            (.ToContractItemExternalPriceComponent contractItemExternalPriceComponentData))

/-- The method `ContractName`: the parent fetch by name, then pricing, items and
parties. -/
def SAPAPICaller.ContractName (c : SAPAPICaller) (w : World) (name : String) :
    Exec Unit := do
  match ← c.callContractSrvAPIRequirementContractName w "ContractCollection" name with
  | .error err => emit (.logError err)
  | .ok contractNameData =>
    match ← c.send ⟨.ContractCollection contractNameData, "ContractNameData"⟩ with
    | some err => emit (.logError err)
    | none =>
      emit (.logInfo (.ContractCollection contractNameData))
      match ← c.callToContractExternalPriceComponent w
          (← index0 contractNameData).ToContractExternalPriceComponent with
      | .error err => emit (.logError err)
      | .ok contractExternalPriceComponentData =>
        match ← c.send ⟨.ToContractExternalPriceComponent contractExternalPriceComponentData,
            "ContractExternalPriceComponentData"⟩ with
        | some err => emit (.logError err)
        | none =>
          emit (.logInfo (.ToContractExternalPriceComponent contractExternalPriceComponentData))
          match ← c.callToContractItem w (← index0 contractNameData).ToContractItem with
          | .error err => emit (.logError err)
          | .ok contractItemData =>
            match ← c.send ⟨.ToContractItem contractItemData, "ContractItemData"⟩ with
            | some err => emit (.logError err)
            | none =>
              emit (.logInfo (.ToContractItem contractItemData))
              match ← c.callToContractParty w (← index0 contractNameData).ToContractParty with
              | .error err => emit (.logError err)
              | .ok contractPartyData =>
                match ← c.send ⟨.ToContractParty contractPartyData, "ContractPartyData"⟩ with
                | some err => emit (.logError err)
                | none => emit (.logInfo (.ToContractParty contractPartyData))

/-! ## The dispatcher -/

/-- The call `wg.Done()` on a wait group whose counter is `wg`: the counter
goes down by one, and a negative counter is a fault. -/
def wgDone (wg : Int) : Exec Int := do
  emit .wgDone
  if wg - 1 < 0 then goPanic "sync: negative WaitGroup counter" else pure (wg - 1)

/-- The call `wg.Wait()`: returns when the counter is zero, and otherwise
waits for a `Done` that nothing is left to make. -/
def wgWait (wg : Int) : Exec Unit := do
  emit .wgWait
  if wg = 0 then pure () else ⟨[], .blocked⟩

/-- The body of the loop of `AsyncGetContract`: the `switch` on the entry `fn`,
with the counter of the wait group passed along.  Each handler is called in a
function literal that is invoked on the spot (there is no `go` statement), so
`wg.Done()` runs when the handler has returned. -/
def switchFn (c : SAPAPICaller) (w : World) (iD itemID name : String) (fn : String)
    (wg : Int) : Exec Int :=
  match fn with
  | "ContractCollection" => do
    emit (.call "ContractCollection" iD)
    c.ContractCollection w iD
    emit (.ret "ContractCollection")
    wgDone wg
  | "ContractItemCollection" => do
    emit (.call "ContractItemCollection" itemID)
    c.ContractItemCollection w itemID
    emit (.ret "ContractItemCollection")
    wgDone wg
  | "ContractName" => do
    emit (.call "ContractName" name)
    c.ContractName w name
    emit (.ret "ContractName")
    wgDone wg
  | _ => wgDone wg

/-- The loop `for _, fn := range accepter` of `AsyncGetContract`. -/
def asyncLoop (c : SAPAPICaller) (w : World) (iD itemID name : String) :
    List String → Int → Exec Int
  | [], wg => pure wg
  | fn :: rest, wg => do
    let wg ← switchFn c w iD itemID name fn wg
    asyncLoop c w iD itemID name rest wg

/-- The method `AsyncGetContract`. -/
def SAPAPICaller.AsyncGetContract (c : SAPAPICaller) (w : World)
    (iD itemID name : String) (accepter : List String) : Exec Unit := do
  emit (.wgAdd accepter.length)
  let wg ← asyncLoop c w iD itemID name accepter accepter.length
  wgWait wg

/-! ## Observations on a run -/

/-- A step that came back with an error: a transport error, a conversion error
or a `Send` error. -/
def Event.failed : Event → Bool
  | .httpDo _ (some _) => true
  | .convert _ (some _) => true
  | .send _ _ (some _) => true
  | _ => false

/-- An entry of the error log. -/
def Event.isLogError : Event → Bool
  | .logError _ => true
  | _ => false

/-- The events a handler can produce: requests, conversions, `Send` calls and
log entries. -/
def Event.ofHandler : Event → Bool
  | .httpDo _ _ => true
  | .convert _ _ => true
  | .send _ _ _ => true
  | .logError _ => true
  | .logInfo _ => true
  | _ => false

/-- The `Send` calls of a trace in order: queue, payload and the error the call
returned. -/
def sends : List Event → List (String × Payload × Option String)
  | [] => []
  | .send q p err :: t => (q, p, err) :: sends t
  | _ :: t => sends t

/-- The `"function"` tags of the `Send` calls of a trace, in order. -/
def sendTags (t : List Event) : List String :=
  (sends t).map fun s => s.2.1.function

/-- The requests handed to the HTTP client, in order. -/
def requests : List Event → List Request
  | [] => []
  | .httpDo req _ :: t => req :: requests t
  | _ :: t => requests t

/-- The handlers entered, in order, each with its argument. -/
def calls : List Event → List (String × String)
  | [] => []
  | .call fn arg :: t => (fn, arg) :: calls t
  | _ :: t => calls t

/-- The value of the wait-group counter after the events of a trace. -/
def wgCounter : List Event → Int
  | [] => 0
  | .wgAdd delta :: t => delta + wgCounter t
  | .wgDone :: t => -1 + wgCounter t
  | _ :: t => wgCounter t

/-- The discipline of a handler on a trace: up to the first failed step nothing
is logged as an error, and the failed step is followed by one entry of the
error log and nothing else. -/
def failStop : List Event → Bool
  | [] => true
  | e :: rest =>
    if e.failed then
      match rest with
      | [.logError _] => true
      | _ => false
    else !e.isLogError && failStop rest

/-- The shapes a fetch (request, then conversion) can take: the request is nil
and the fetch faults before any request; the request fails; the conversion
fails; both succeed. -/
inductive Fetched {α : Type} : Exec (Except String α) → Prop
  | nilRequest (msg : String) : Fetched ⟨[], .panic msg⟩
  | transport (req : Request) (err e : String) :
      Fetched ⟨[.httpDo req (some err)], .val (.error e)⟩
  | conversion (req : Request) (converter err e : String) :
      Fetched ⟨[.httpDo req none, .convert converter (some err)], .val (.error e)⟩
  | ok (req : Request) (converter : String) (data : α) :
      Fetched ⟨[.httpDo req none, .convert converter none], .val (.ok data)⟩

/-- One stage of a handler: a fetch, the `Send` of its result under a tag, the
`Info` log entry, and what follows.  A failed fetch or `Send` is logged and
ends the handler. -/
def stage {α : Type} (c : SAPAPICaller) (fetch : Exec (Except String α)) (msg : α → Message)
    (function : String) (next : α → Exec Unit) : Exec Unit :=
  Exec.bind fetch fun r =>
    match r with
    | .error err => emit (.logError err)
    | .ok data =>
      Exec.bind (c.send ⟨msg data, function⟩) fun e =>
        match e with
        | some err => emit (.logError err)
        | none => Exec.bind (emit (.logInfo (msg data))) fun _ => next data

/-- What `ContractCollection` and `ContractName` do once the parent result is
published: pricing, items and parties, each fetched from a link of record 0 of
the parent result. -/
def dependents (c : SAPAPICaller) (w : World)
    (parent : List sap_api_output_formatter.ContractCollection) : Exec Unit :=
  Exec.bind (index0 parent) fun r0 =>
  stage c (c.callToContractExternalPriceComponent w r0.ToContractExternalPriceComponent)
    Message.ToContractExternalPriceComponent "ContractExternalPriceComponentData" fun _ =>
  Exec.bind (index0 parent) fun r1 =>
  stage c (c.callToContractItem w r1.ToContractItem)
    Message.ToContractItem "ContractItemData" fun _ =>
  Exec.bind (index0 parent) fun r2 =>
  stage c (c.callToContractParty w r2.ToContractParty)
    Message.ToContractParty "ContractPartyData" fun _ => pure ()

/-- What `ContractItemCollection` does once the parent result is published:
pricing, fetched from the link of record 0 of the parent result. -/
def itemDependents (c : SAPAPICaller) (w : World)
    (parent : List sap_api_output_formatter.ContractItemCollection) : Exec Unit :=
  Exec.bind (index0 parent) fun r0 =>
  stage c (c.callToContractItemExternalPriceComponent w r0.ToContractItemExternalPriceComponent)
    Message.ToContractItemExternalPriceComponent "ContractItemExternalPriceComponentData"
    fun _ => pure ()

/-- What every run of a handler satisfies, `tags` being the tag sequence of the
handler: the failed step, if any, is logged once and is the last thing done
before the handler returns; the tags of the `Send` calls are an initial part of
`tags`; all events are those of a handler; the run does not wait. -/
structure Handled (x : Exec Unit) (tags : List String) : Prop where
  stop : failStop x.trace = true
  returns : (∃ e ∈ x.trace, e.failed = true) → x.res = .val ()
  tags : sendTags x.trace <+: tags
  events : ∀ e ∈ x.trace, e.ofHandler = true
  notBlocked : x.res ≠ .blocked

/-- The claim on one run of a handler whose tag sequence is `tags`: a failed
step is followed by one entry of the error log and by nothing else, and the
handler then returns; an entry of the error log comes right after a failed step
and is the last event; the tags published are an initial part of `tags`. -/
def StopsAtFirstFailure (x : Exec Unit) (tags : List String) : Prop :=
  (∀ pre e post, x.trace = pre ++ e :: post → e.failed = true →
    (∃ msg, post = [Event.logError msg]) ∧ x.res = .val ()) ∧
  (∀ pre msg post, x.trace = pre ++ Event.logError msg :: post →
    post = [] ∧ ∃ before f, pre = before ++ [f] ∧ f.failed = true) ∧
  sendTags x.trace <+: tags

/-- The aspect names `AsyncGetContract` has a case for. -/
def recognized (fn : String) : Bool :=
  fn == "ContractCollection" || fn == "ContractItemCollection" || fn == "ContractName"

/-- The handler `AsyncGetContract` runs for an entry of `accepter`, run on its
own; an entry that is not a recognized name has no handler. -/
def handlerRun (c : SAPAPICaller) (w : World) (iD itemID name : String) (fn : String) :
    Exec Unit :=
  match fn with
  | "ContractCollection" => c.ContractCollection w iD
  | "ContractItemCollection" => c.ContractItemCollection w itemID
  | "ContractName" => c.ContractName w name
  | _ => pure ()

/-- The argument `AsyncGetContract` passes to the handler of an entry. -/
def handlerArg (iD itemID name : String) (fn : String) : String :=
  match fn with
  | "ContractCollection" => iD
  | "ContractItemCollection" => itemID
  | "ContractName" => name
  | _ => ""

/-- What one entry of `accepter` contributes: for a recognized name the call of
its handler, the handler, its return and one `Done`; for any other entry one
`Done`. -/
def entry (c : SAPAPICaller) (w : World) (iD itemID name : String) (fn : String) :
    Exec Unit :=
  if recognized fn then
    Exec.bind (emit (.call fn (handlerArg iD itemID name fn))) fun _ =>
    Exec.bind (handlerRun c w iD itemID name fn) fun _ =>
    Exec.bind (emit (.ret fn)) fun _ => emit .wgDone
  else emit .wgDone

/-- The entries of `accepter` one after the other. -/
def entries (c : SAPAPICaller) (w : World) (iD itemID name : String) :
    List String → Exec Unit
  | [] => pure ()
  | fn :: rest => Exec.bind (entry c w iD itemID name fn) fun _ =>
      entries c w iD itemID name rest

/-- The events of one entry of `accepter` when its handler returns. -/
def entryTrace (c : SAPAPICaller) (w : World) (iD itemID name : String) (fn : String) :
    List Event :=
  if recognized fn then
    .call fn (handlerArg iD itemID name fn) :: (handlerRun c w iD itemID name fn).trace ++
      [.ret fn, .wgDone]
  else [.wgDone]

/-- A `wg.Add` event. -/
def Event.isAdd : Event → Bool
  | .wgAdd _ => true
  | _ => false

/-- A wait-group event. -/
def Event.ofWaitGroup : Event → Bool
  | .wgAdd _ => true
  | .wgDone => true
  | .wgWait => true
  | _ => false

/-- The events of an accepted publication: the `Send` call and the entry of the
`Info` log. -/
def published (q : String) (message : Message) (function : String) : List Event :=
  [.send q ⟨message, function⟩ none, .logInfo message]

/-- What a run `run` of the handler by identifier or by name does with the links
of record 0, `parent` being its parent fetch and `function` its parent tag.
Once the parent result `r :: rs` is published, the pricing fetch on the pricing
link of `r` follows; once the pricing result is published, the items fetch on
the items link of `r` follows; once the items result is published, the parties
fetch on the parties link of `r` follows.  Nothing is asked of what the links
hold. -/
def FetchesEveryLink (c : SAPAPICaller) (w : World)
    (parent : Exec (Except String (List sap_api_output_formatter.ContractCollection)))
    (function : String) (run : Exec Unit) : Prop :=
  ∀ r rs q qs, parent.res = .val (.ok (r :: rs)) → c.outputQueues = q :: qs →
    c.outputter.Send q ⟨.ContractCollection (r :: rs), function⟩ = none →
    (parent.trace ++ published q (.ContractCollection (r :: rs)) function ++
        (c.callToContractExternalPriceComponent w r.ToContractExternalPriceComponent).trace <+:
      run.trace) ∧
    (∀ price,
      (c.callToContractExternalPriceComponent w r.ToContractExternalPriceComponent).res =
        .val (.ok price) →
      c.outputter.Send q ⟨.ToContractExternalPriceComponent price,
        "ContractExternalPriceComponentData"⟩ = none →
      parent.trace ++ published q (.ContractCollection (r :: rs)) function ++
        (c.callToContractExternalPriceComponent w r.ToContractExternalPriceComponent).trace ++
        published q (.ToContractExternalPriceComponent price)
          "ContractExternalPriceComponentData" ++
        (c.callToContractItem w r.ToContractItem).trace <+: run.trace) ∧
    (∀ price items,
      (c.callToContractExternalPriceComponent w r.ToContractExternalPriceComponent).res =
        .val (.ok price) →
      c.outputter.Send q ⟨.ToContractExternalPriceComponent price,
        "ContractExternalPriceComponentData"⟩ = none →
      (c.callToContractItem w r.ToContractItem).res = .val (.ok items) →
      c.outputter.Send q ⟨.ToContractItem items, "ContractItemData"⟩ = none →
      parent.trace ++ published q (.ContractCollection (r :: rs)) function ++
        (c.callToContractExternalPriceComponent w r.ToContractExternalPriceComponent).trace ++
        published q (.ToContractExternalPriceComponent price)
          "ContractExternalPriceComponentData" ++
        (c.callToContractItem w r.ToContractItem).trace ++
        published q (.ToContractItem items) "ContractItemData" ++
        (c.callToContractParty w r.ToContractParty).trace <+: run.trace)

/-! ## Worlds and callers of the examples -/

/-- A contract record with its three links set. -/
def contractC100 : sap_api_output_formatter.ContractCollection :=
  { ToContractExternalPriceComponent := "https://sap.example/pricing"
    ToContractItem := "https://sap.example/items"
    ToContractParty := "https://sap.example/parties"
    fields := [("ID", "C100")] }

/-- A contract item record with its link set. -/
def itemI200 : sap_api_output_formatter.ContractItemCollection :=
  { ToContractItemExternalPriceComponent := "https://sap.example/itempricing"
    fields := [("ID", "I200")] }

/-- A world in which every URL parses, the client answers every request but
the one for the empty URL (which `net/http` rejects), and every conversion
succeeds; the parent collections hold one record.  Its `Encode` joins the
parameters without escaping them. -/
def exampleWorld : World where
  Parse := fun url => some ⟨url, ""⟩
  Query := fun _ => []
  Encode := fun v => "&".intercalate (v.map fun kv => kv.1 ++ "=" ++ kv.2)
  Do := fun req =>
    if req.URL.raw = "" then .error "unsupported protocol scheme" else .ok []
  ConvertToContractCollection := fun _ => .ok [contractC100]
  ConvertToContractItemCollection := fun _ => .ok [itemI200]
  ConvertToToContractExternalPriceComponent := fun _ => .ok [⟨[("Price", "10")]⟩]
  ConvertToToContractItem := fun _ => .ok [⟨[("ItemID", "10")]⟩]
  ConvertToToContractParty := fun _ => .ok [⟨[("PartyID", "P1")]⟩]
  ConvertToToContractItemExternalPriceComponent := fun _ => .ok [⟨[("Price", "20")]⟩]

/-- The world `exampleWorld` with the pricing payloads malformed. -/
def pricingFailsWorld : World :=
  { exampleWorld with
    ConvertToToContractExternalPriceComponent := fun _ => .error "unexpected end of JSON input"
    ConvertToToContractItemExternalPriceComponent := fun _ =>
      .error "unexpected end of JSON input" }

/-- The world `exampleWorld` with no record in the parent collections. -/
def emptyParentWorld : World :=
  { exampleWorld with
    ConvertToContractCollection := fun _ => .ok []
    ConvertToContractItemCollection := fun _ => .ok [] }

/-- The world `exampleWorld` with parent records whose pricing link is the
empty string. -/
def emptyLinkWorld : World :=
  { exampleWorld with
    ConvertToContractCollection := fun _ =>
      .ok [{ contractC100 with ToContractExternalPriceComponent := "" }]
    ConvertToContractItemCollection := fun _ =>
      .ok [{ itemI200 with ToContractItemExternalPriceComponent := "" }] }

/-- The world `exampleWorld` with a parent record whose items link is the empty
string. -/
def emptyItemsLinkWorld : World :=
  { exampleWorld with
    ConvertToContractCollection := fun _ => .ok [{ contractC100 with ToContractItem := "" }] }

/-- The world `exampleWorld` with a parent record whose parties link is the
empty string. -/
def emptyPartiesLinkWorld : World :=
  { exampleWorld with
    ConvertToContractCollection := fun _ => .ok [{ contractC100 with ToContractParty := "" }] }

/-- A caller with one output queue, whose outputter accepts every message. -/
def exampleCaller : SAPAPICaller :=
  { baseURL := "https://sap.example"
    apiKey := "key"
    outputQueues := ["queue-to"]
    outputter := ⟨fun _ _ => none⟩ }

/-- The caller `exampleCaller` built with an empty list of output queues. -/
def noQueueCaller : SAPAPICaller :=
  { exampleCaller with outputQueues := [] }

/-! ## Sequencing -/

theorem Exec.bind_val {α β : Type} (t : List Event) (a : α) (f : α → Exec β) :
    Exec.bind ⟨t, .val a⟩ f = ⟨t ++ (f a).trace, (f a).res⟩ := rfl

theorem Exec.bind_panic {α β : Type} (t : List Event) (msg : String) (f : α → Exec β) :
    Exec.bind ⟨t, .panic msg⟩ f = ⟨t, .panic msg⟩ := rfl

theorem Exec.bind_blocked {α β : Type} (t : List Event) (f : α → Exec β) :
    Exec.bind (⟨t, .blocked⟩ : Exec α) f = ⟨t, .blocked⟩ := rfl

theorem Exec.bind_of_val {α β : Type} (x : Exec α) (a : α) (f : α → Exec β)
    (h : x.res = .val a) : Exec.bind x f = ⟨x.trace ++ (f a).trace, (f a).res⟩ := by
  rcases x with ⟨t, r⟩
  simp only at h
  subst h
  rfl

theorem Exec.bind_unit (x : Exec Unit) :
    (x.bind fun _ => ({ trace := [], res := Res.val () } : Exec Unit)) = x := by
  rcases x with ⟨t, r⟩
  cases r <;> simp [Exec.bind]

theorem emit_bind {β : Type} (e : Event) (f : Unit → Exec β) :
    Exec.bind (emit e) f = ⟨e :: (f ()).trace, (f ()).res⟩ := rfl

/-! ## The handlers as stages -/

theorem ContractCollection_eq_stage (c : SAPAPICaller) (w : World) (iD : String) :
    c.ContractCollection w iD =
      stage c (c.callContractSrvAPIRequirementContractCollection w "ContractCollectionData" iD)
        Message.ContractCollection "ContractCollectionData" (dependents c w) := by
  unfold SAPAPICaller.ContractCollection stage dependents stage
  simp only [bind, pure, Exec.bind_unit]
  repeat (first | rfl | (congr 1; funext x; cases x <;> try simp only []))

theorem ContractName_eq_stage (c : SAPAPICaller) (w : World) (name : String) :
    c.ContractName w name =
      stage c (c.callContractSrvAPIRequirementContractName w "ContractCollection" name)
        Message.ContractCollection "ContractNameData" (dependents c w) := by
  unfold SAPAPICaller.ContractName stage dependents stage
  simp only [bind, pure, Exec.bind_unit]
  repeat (first | rfl | (congr 1; funext x; cases x <;> try simp only []))

theorem ContractItemCollection_eq_stage (c : SAPAPICaller) (w : World) (itemID : String) :
    c.ContractItemCollection w itemID =
      stage c
        (c.callContractSrvAPIRequirementContractItemCollection w
          "ContractItemCollectionData" itemID)
        Message.ContractItemCollection "ContractItemCollectionData" (itemDependents c w) := by
  unfold SAPAPICaller.ContractItemCollection stage itemDependents stage
  simp only [bind, pure, Exec.bind_unit]
  repeat (first | rfl | (congr 1; funext x; cases x <;> try simp only []))

/-! ## The shape of a fetch -/

theorem fetched_of_parts {α : Type} (c : SAPAPICaller) (w : World) (req : Option Request)
    (query : Request → Request) (converter : String) (conv : List Nat → Except String α)
    (k1 : Except String (List Nat) → Exec (Except String α))
    (k2 : Except String α → Exec (Except String α))
    (h1 : ∀ err, ∃ e, k1 (.error err) = ⟨[], .val (.error e)⟩)
    (h2 : ∀ b, k1 (.ok b) = Exec.bind (runConvert converter (conv b)) k2)
    (h3 : ∀ err, ∃ e, k2 (.error err) = ⟨[], .val (.error e)⟩)
    (h4 : ∀ d, k2 (.ok d) = ⟨[], .val (.ok d)⟩) :
    Fetched
      (Exec.bind (c.setHeaderAPIKeyAccept req) fun req => Exec.bind (httpDo w (query req)) k1) := by
  cases req with
  | none => exact Fetched.nilRequest _
  | some r =>
    simp only [SAPAPICaller.setHeaderAPIKeyAccept, pure, Exec.bind_val, httpDo]
    cases hdo : w.Do (query _) with
    | error err =>
      obtain ⟨e, he⟩ := h1 err
      simp only [Exec.bind_val, List.nil_append, he, List.append_nil]
      exact Fetched.transport _ _ _
    | ok byteArray =>
      simp only [Exec.bind_val, List.nil_append, h2, runConvert]
      cases hconv : conv byteArray with
      | error err =>
        obtain ⟨e, he⟩ := h3 err
        simp only [Exec.bind_val, he, List.append_nil, List.singleton_append]
        exact Fetched.conversion _ _ _ _
      | ok data =>
        simp only [Exec.bind_val, h4, List.append_nil, List.singleton_append]
        exact Fetched.ok _ _ _

theorem fetched_callToContractExternalPriceComponent (c : SAPAPICaller) (w : World)
    (url : String) : Fetched (c.callToContractExternalPriceComponent w url) := by
  unfold SAPAPICaller.callToContractExternalPriceComponent
  simp only [bind, pure]
  exact fetched_of_parts c w (NewRequest w "GET" url) (fun req => req)
    "ConvertToToContractExternalPriceComponent" w.ConvertToToContractExternalPriceComponent _ _
    (fun _ => ⟨_, rfl⟩) (fun _ => rfl) (fun _ => ⟨_, rfl⟩) (fun _ => rfl)

theorem fetched_callToContractItem (c : SAPAPICaller) (w : World)
    (url : String) : Fetched (c.callToContractItem w url) := by
  unfold SAPAPICaller.callToContractItem
  simp only [bind, pure]
  exact fetched_of_parts c w (NewRequest w "GET" url) (fun req => req)
    "ConvertToToContractItem" w.ConvertToToContractItem _ _
    (fun _ => ⟨_, rfl⟩) (fun _ => rfl) (fun _ => ⟨_, rfl⟩) (fun _ => rfl)

theorem fetched_callToContractParty (c : SAPAPICaller) (w : World)
    (url : String) : Fetched (c.callToContractParty w url) := by
  unfold SAPAPICaller.callToContractParty
  simp only [bind, pure]
  exact fetched_of_parts c w (NewRequest w "GET" url) (fun req => req)
    "ConvertToToContractParty" w.ConvertToToContractParty _ _
    (fun _ => ⟨_, rfl⟩) (fun _ => rfl) (fun _ => ⟨_, rfl⟩) (fun _ => rfl)

theorem fetched_callToContractItemExternalPriceComponent (c : SAPAPICaller) (w : World)
    (url : String) : Fetched (c.callToContractItemExternalPriceComponent w url) := by
  unfold SAPAPICaller.callToContractItemExternalPriceComponent
  simp only [bind, pure]
  exact fetched_of_parts c w (NewRequest w "GET" url) (fun req => req)
    "ConvertToToContractItemExternalPriceComponent" w.ConvertToToContractItemExternalPriceComponent _ _
    (fun _ => ⟨_, rfl⟩) (fun _ => rfl) (fun _ => ⟨_, rfl⟩) (fun _ => rfl)

theorem fetched_callContractCollection (c : SAPAPICaller) (w : World)
    (api iD : String) : Fetched (c.callContractSrvAPIRequirementContractCollection w api iD) := by
  unfold SAPAPICaller.callContractSrvAPIRequirementContractCollection
  simp only [bind, pure]
  exact fetched_of_parts c w (NewRequest w "GET" ("/".intercalate [c.baseURL, "c4codataapi", api])) (fun req => c.getQueryWithContractCollection w req iD)
    "ConvertToContractCollection" w.ConvertToContractCollection _ _
    (fun _ => ⟨_, rfl⟩) (fun _ => rfl) (fun _ => ⟨_, rfl⟩) (fun _ => rfl)

theorem fetched_callContractItemCollection (c : SAPAPICaller) (w : World)
    (api itemID : String) : Fetched (c.callContractSrvAPIRequirementContractItemCollection w api itemID) := by
  unfold SAPAPICaller.callContractSrvAPIRequirementContractItemCollection
  simp only [bind, pure]
  exact fetched_of_parts c w (NewRequest w "GET" ("/".intercalate [c.baseURL, "c4codataapi", api])) (fun req => c.getQueryWithContractItemCollection w req itemID)
    "ConvertToContractItemCollection" w.ConvertToContractItemCollection _ _
    (fun _ => ⟨_, rfl⟩) (fun _ => rfl) (fun _ => ⟨_, rfl⟩) (fun _ => rfl)

theorem fetched_callContractName (c : SAPAPICaller) (w : World)
    (api name : String) : Fetched (c.callContractSrvAPIRequirementContractName w api name) := by
  unfold SAPAPICaller.callContractSrvAPIRequirementContractName
  simp only [bind, pure]
  exact fetched_of_parts c w (NewRequest w "GET" ("/".intercalate [c.baseURL, "c4codataapi", api])) (fun req => c.getQueryWithContractName w req name)
    "ConvertToContractCollection" w.ConvertToContractCollection _ _
    (fun _ => ⟨_, rfl⟩) (fun _ => rfl) (fun _ => ⟨_, rfl⟩) (fun _ => rfl)

/-! ## One stage -/

theorem send_nil (c : SAPAPICaller) (p : Payload) (h : c.outputQueues = []) :
    c.send p = ⟨[], .panic "runtime error: index out of range [0] with length 0"⟩ := by
  simp only [SAPAPICaller.send, h, index0, goPanic, bind, Exec.bind_panic]

theorem send_cons (c : SAPAPICaller) (p : Payload) (q : String) (qs : List String)
    (h : c.outputQueues = q :: qs) :
    c.send p = ⟨[.send q p (c.outputter.Send q p)], .val (c.outputter.Send q p)⟩ := by
  simp only [SAPAPICaller.send, h, index0, bind, pure, emit, Exec.bind_val, List.nil_append,
    List.append_nil]

theorem stage_error {α : Type} (c : SAPAPICaller) (fetch : Exec (Except String α))
    (msg : α → Message) (function : String) (next : α → Exec Unit) (err : String)
    (h : fetch.res = .val (.error err)) :
    stage c fetch msg function next = ⟨fetch.trace ++ [.logError err], .val ()⟩ := by
  simp only [stage, Exec.bind_of_val _ _ _ h, emit]

theorem stage_sent {α : Type} (c : SAPAPICaller) (fetch : Exec (Except String α))
    (msg : α → Message) (function : String) (next : α → Exec Unit) (data : α)
    (q : String) (qs : List String) (h : fetch.res = .val (.ok data))
    (hq : c.outputQueues = q :: qs) (hs : c.outputter.Send q ⟨msg data, function⟩ = none) :
    stage c fetch msg function next =
      ⟨fetch.trace ++ .send q ⟨msg data, function⟩ none :: .logInfo (msg data) ::
        (next data).trace, (next data).res⟩ := by
  simp only [stage, Exec.bind_of_val _ _ _ h, send_cons c _ q qs hq, hs, Exec.bind_val,
    emit, List.singleton_append, List.cons_append, List.nil_append]

theorem stage_send_failed {α : Type} (c : SAPAPICaller) (fetch : Exec (Except String α))
    (msg : α → Message) (function : String) (next : α → Exec Unit) (data : α)
    (q : String) (qs : List String) (err : String) (h : fetch.res = .val (.ok data))
    (hq : c.outputQueues = q :: qs)
    (hs : c.outputter.Send q ⟨msg data, function⟩ = some err) :
    stage c fetch msg function next =
      ⟨fetch.trace ++ [.send q ⟨msg data, function⟩ (some err), .logError err], .val ()⟩ := by
  simp only [stage, Exec.bind_of_val _ _ _ h, send_cons c _ q qs hq, hs, Exec.bind_val,
    emit, List.singleton_append, List.cons_append, List.nil_append]

theorem stage_no_queue {α : Type} (c : SAPAPICaller) (fetch : Exec (Except String α))
    (msg : α → Message) (function : String) (next : α → Exec Unit) (data : α)
    (h : fetch.res = .val (.ok data)) (hq : c.outputQueues = []) :
    stage c fetch msg function next =
      ⟨fetch.trace, .panic "runtime error: index out of range [0] with length 0"⟩ := by
  simp only [stage, Exec.bind_of_val _ _ _ h, send_nil c _ hq, Exec.bind_panic,
    List.append_nil]

theorem stage_handled {α : Type} (c : SAPAPICaller) (fetch : Exec (Except String α))
    (msg : α → Message) (function : String) (next : α → Exec Unit) (tags : List String)
    (hf : Fetched fetch) (hn : ∀ data, Handled (next data) tags) :
    Handled (stage c fetch msg function next) (function :: tags) := by
  cases hf with
  | nilRequest m =>
    refine ⟨?_, ?_, ?_, ?_, ?_⟩ <;> simp [stage, Exec.bind_panic, failStop, sendTags, sends]
  | transport req err e =>
    rw [stage_error c _ msg function next e rfl]
    refine ⟨?_, ?_, ?_, ?_, ?_⟩ <;>
      simp [failStop, sendTags, sends, Event.failed, Event.isLogError, Event.ofHandler]
  | conversion req converter err e =>
    rw [stage_error c _ msg function next e rfl]
    refine ⟨?_, ?_, ?_, ?_, ?_⟩ <;>
      simp [failStop, sendTags, sends, Event.failed, Event.isLogError, Event.ofHandler]
  | ok req converter data =>
    cases hq : c.outputQueues with
    | nil =>
      rw [stage_no_queue c _ msg function next data rfl hq]
      refine ⟨?_, ?_, ?_, ?_, ?_⟩ <;>
        simp [failStop, sendTags, sends, Event.failed, Event.isLogError, Event.ofHandler]
    | cons q qs =>
      cases hs : c.outputter.Send q ⟨msg data, function⟩ with
      | some err =>
        rw [stage_send_failed c _ msg function next data q qs err rfl hq hs]
        refine ⟨?_, ?_, ?_, ?_, ?_⟩ <;>
          simp [failStop, sendTags, sends, Event.failed, Event.isLogError, Event.ofHandler]
      | none =>
        rw [stage_sent c _ msg function next data q qs rfl hq hs]
        have h := hn data
        refine ⟨?_, ?_, ?_, ?_, ?_⟩
        · simpa [failStop, Event.failed, Event.isLogError] using h.stop
        · intro hex
          apply h.returns
          simpa [Event.failed] using hex
        · have := h.tags
          simpa [sendTags, sends, List.cons_prefix_cons] using this
        · simpa [Event.ofHandler] using h.events
        · exact h.notBlocked

theorem index0_handled {α : Type} (s : List α) (f : α → Exec Unit) (tags : List String)
    (h : ∀ r, Handled (f r) tags) : Handled (Exec.bind (index0 s) f) tags := by
  cases s with
  | nil =>
    refine ⟨?_, ?_, ?_, ?_, ?_⟩ <;>
      simp [index0, goPanic, Exec.bind_panic, failStop, sendTags, sends]
  | cons r rs =>
    have := h r
    simpa [index0, pure, Exec.bind_val] using this

theorem pure_handled : Handled (pure ()) [] := by
  refine ⟨?_, ?_, ?_, ?_, ?_⟩ <;> simp [pure, failStop, sendTags, sends]

theorem dependents_handled (c : SAPAPICaller) (w : World)
    (parent : List sap_api_output_formatter.ContractCollection) :
    Handled (dependents c w parent)
      ["ContractExternalPriceComponentData", "ContractItemData", "ContractPartyData"] := by
  unfold dependents
  refine index0_handled _ _ _ fun r0 => ?_
  refine stage_handled c _ _ _ _ _ (fetched_callToContractExternalPriceComponent c w _) fun _ => ?_
  refine index0_handled _ _ _ fun r1 => ?_
  refine stage_handled c _ _ _ _ _ (fetched_callToContractItem c w _) fun _ => ?_
  refine index0_handled _ _ _ fun r2 => ?_
  exact stage_handled c _ _ _ _ _ (fetched_callToContractParty c w _) fun _ => pure_handled

theorem itemDependents_handled (c : SAPAPICaller) (w : World)
    (parent : List sap_api_output_formatter.ContractItemCollection) :
    Handled (itemDependents c w parent) ["ContractItemExternalPriceComponentData"] := by
  unfold itemDependents
  refine index0_handled _ _ _ fun r0 => ?_
  exact stage_handled c _ _ _ _ _ (fetched_callToContractItemExternalPriceComponent c w _)
    fun _ => pure_handled

theorem ContractCollection_handled (c : SAPAPICaller) (w : World) (iD : String) :
    Handled (c.ContractCollection w iD)
      ["ContractCollectionData", "ContractExternalPriceComponentData", "ContractItemData",
        "ContractPartyData"] := by
  rw [ContractCollection_eq_stage]
  exact stage_handled c _ _ _ _ _ (fetched_callContractCollection c w _ _)
    (dependents_handled c w)

theorem ContractName_handled (c : SAPAPICaller) (w : World) (name : String) :
    Handled (c.ContractName w name)
      ["ContractNameData", "ContractExternalPriceComponentData", "ContractItemData",
        "ContractPartyData"] := by
  rw [ContractName_eq_stage]
  exact stage_handled c _ _ _ _ _ (fetched_callContractName c w _ _) (dependents_handled c w)

theorem ContractItemCollection_handled (c : SAPAPICaller) (w : World) (itemID : String) :
    Handled (c.ContractItemCollection w itemID)
      ["ContractItemCollectionData", "ContractItemExternalPriceComponentData"] := by
  rw [ContractItemCollection_eq_stage]
  exact stage_handled c _ _ _ _ _ (fetched_callContractItemCollection c w _ _)
    (itemDependents_handled c w)

/-! ## Traces -/

theorem sends_append (a b : List Event) : sends (a ++ b) = sends a ++ sends b := by
  induction a with
  | nil => rfl
  | cons e t ih => cases e <;> simp [sends, ih]

theorem requests_append (a b : List Event) : requests (a ++ b) = requests a ++ requests b := by
  induction a with
  | nil => rfl
  | cons e t ih => cases e <;> simp [requests, ih]

theorem calls_append (a b : List Event) : calls (a ++ b) = calls a ++ calls b := by
  induction a with
  | nil => rfl
  | cons e t ih => cases e <;> simp [calls, ih]

theorem wgCounter_append (a b : List Event) :
    wgCounter (a ++ b) = wgCounter a + wgCounter b := by
  induction a with
  | nil => simp [wgCounter]
  | cons e t ih => cases e <;> simp [wgCounter, ih, add_assoc]

theorem fetched_sends {α : Type} (x : Exec (Except String α)) (h : Fetched x) :
    sends x.trace = [] := by
  cases h <;> rfl

theorem failStop_failed (pre : List Event) (e : Event) (post : List Event)
    (h : failStop (pre ++ e :: post) = true) (he : e.failed = true) :
    ∃ msg, post = [Event.logError msg] := by
  induction pre with
  | nil =>
    simp only [List.nil_append, failStop, he, if_true] at h
    split at h
    · exact ⟨_, rfl⟩
    · simp at h
  | cons a t ih =>
    simp only [List.cons_append, failStop] at h
    by_cases ha : a.failed = true
    · simp only [ha, if_true] at h
      split at h
      · rename_i heq
        cases t with
        | nil =>
          simp only [List.append_eq, List.nil_append, List.cons.injEq] at heq
          rw [heq.1] at he
          simp [Event.failed] at he
        | cons b u => simp at heq
      · cases h
    · simp only [ha] at h
      simp only [Bool.false_eq_true, if_false, Bool.and_eq_true] at h
      exact ih h.2

theorem failStop_logError (pre : List Event) (msg : String) (post : List Event)
    (h : failStop (pre ++ Event.logError msg :: post) = true) :
    post = [] ∧ ∃ before f, pre = before ++ [f] ∧ f.failed = true := by
  induction pre with
  | nil => simp [failStop, Event.failed, Event.isLogError] at h
  | cons a t ih =>
    simp only [List.cons_append, failStop] at h
    by_cases ha : a.failed = true
    · simp only [ha, if_true] at h
      split at h
      · rename_i heq
        cases t with
        | nil =>
          simp only [List.append_eq, List.nil_append, List.cons.injEq] at heq
          exact ⟨heq.2, [], a, rfl, ha⟩
        | cons b u => simp at heq
      · cases h
    · simp only [ha] at h
      simp only [Bool.false_eq_true, if_false, Bool.and_eq_true] at h
      obtain ⟨hpost, before, f, hpre, hf⟩ := ih h.2
      exact ⟨hpost, a :: before, f, by simp [hpre], hf⟩

theorem handled_stops (x : Exec Unit) (tags : List String) (h : Handled x tags) :
    StopsAtFirstFailure x tags := by
  refine ⟨?_, ?_, h.tags⟩
  · intro pre e post htrace he
    refine ⟨failStop_failed pre e post (htrace ▸ h.stop) he, h.returns ⟨e, ?_, he⟩⟩
    simp [htrace]
  · intro pre msg post htrace
    exact failStop_logError pre msg post (htrace ▸ h.stop)

/-! ## The handlers when every step succeeds -/

/-- C1: when the parent fetch of `ContractCollection` returns a non-empty list
`r :: rs`, the three dependent fetches succeed, every `Send` succeeds and
`outputQueues` starts with `q`, the handler returns, and it makes exactly four
`Send` calls, all to `q`, tagged `ContractCollectionData`,
`ContractExternalPriceComponentData`, `ContractItemData` and `ContractPartyData`
in that order, each carrying the converted result of its fetch.  The three
dependent fetches are the calls on the fields `ToContractExternalPriceComponent`,
`ToContractItem` and `ToContractParty` of `r`, record 0 of the parent result. -/
theorem ContractCollection_publishes_four (c : SAPAPICaller) (w : World) (iD : String)
    (r : sap_api_output_formatter.ContractCollection)
    (rs : List sap_api_output_formatter.ContractCollection)
    (price : List sap_api_output_formatter.ToContractExternalPriceComponent)
    (items : List sap_api_output_formatter.ToContractItem)
    (parties : List sap_api_output_formatter.ToContractParty)
    (q : String) (qs : List String)
    (hparent : (c.callContractSrvAPIRequirementContractCollection w
      "ContractCollectionData" iD).res = .val (.ok (r :: rs)))
    (hprice : (c.callToContractExternalPriceComponent w
      r.ToContractExternalPriceComponent).res = .val (.ok price))
    (hitems : (c.callToContractItem w r.ToContractItem).res = .val (.ok items))
    (hparties : (c.callToContractParty w r.ToContractParty).res = .val (.ok parties))
    (hsend : ∀ sendQueue payload, c.outputter.Send sendQueue payload = none)
    (hq : c.outputQueues = q :: qs) :
    (c.ContractCollection w iD).res = .val () ∧
    sends (c.ContractCollection w iD).trace =
      [(q, ⟨.ContractCollection (r :: rs), "ContractCollectionData"⟩, none),
       (q, ⟨.ToContractExternalPriceComponent price, "ContractExternalPriceComponentData"⟩,
         none),
       (q, ⟨.ToContractItem items, "ContractItemData"⟩, none),
       (q, ⟨.ToContractParty parties, "ContractPartyData"⟩, none)] ∧
    (c.ContractCollection w iD).trace =
      (c.callContractSrvAPIRequirementContractCollection w "ContractCollectionData" iD).trace ++
      [.send q ⟨.ContractCollection (r :: rs), "ContractCollectionData"⟩ none,
       .logInfo (.ContractCollection (r :: rs))] ++
      (c.callToContractExternalPriceComponent w r.ToContractExternalPriceComponent).trace ++
      [.send q ⟨.ToContractExternalPriceComponent price,
         "ContractExternalPriceComponentData"⟩ none,
       .logInfo (.ToContractExternalPriceComponent price)] ++
      (c.callToContractItem w r.ToContractItem).trace ++
      [.send q ⟨.ToContractItem items, "ContractItemData"⟩ none,
       .logInfo (.ToContractItem items)] ++
      (c.callToContractParty w r.ToContractParty).trace ++
      [.send q ⟨.ToContractParty parties, "ContractPartyData"⟩ none,
       .logInfo (.ToContractParty parties)] := by
  have htrace : c.ContractCollection w iD = ⟨
      (c.callContractSrvAPIRequirementContractCollection w "ContractCollectionData" iD).trace ++
      [.send q ⟨.ContractCollection (r :: rs), "ContractCollectionData"⟩ none,
       .logInfo (.ContractCollection (r :: rs))] ++
      (c.callToContractExternalPriceComponent w r.ToContractExternalPriceComponent).trace ++
      [.send q ⟨.ToContractExternalPriceComponent price,
         "ContractExternalPriceComponentData"⟩ none,
       .logInfo (.ToContractExternalPriceComponent price)] ++
      (c.callToContractItem w r.ToContractItem).trace ++
      [.send q ⟨.ToContractItem items, "ContractItemData"⟩ none,
       .logInfo (.ToContractItem items)] ++
      (c.callToContractParty w r.ToContractParty).trace ++
      [.send q ⟨.ToContractParty parties, "ContractPartyData"⟩ none,
       .logInfo (.ToContractParty parties)], .val ()⟩ := by
    rw [ContractCollection_eq_stage,
      stage_sent c _ _ _ _ (r :: rs) q qs hparent hq (hsend _ _)]
    simp only [dependents, index0, pure, Exec.bind_val, List.nil_append]
    rw [stage_sent c _ _ _ _ price q qs hprice hq (hsend _ _)]
    simp only [Exec.bind_val, List.nil_append]
    rw [stage_sent c _ _ _ _ items q qs hitems hq (hsend _ _)]
    simp only [Exec.bind_val, List.nil_append]
    rw [stage_sent c _ _ _ _ parties q qs hparties hq (hsend _ _)]
    simp only [List.append_assoc, List.cons_append, List.nil_append, List.append_nil]
  refine ⟨by rw [htrace], ?_, by rw [htrace]⟩
  rw [htrace]
  simp only [sends_append, sends, fetched_sends _ (fetched_callContractCollection c w _ _),
    fetched_sends _ (fetched_callToContractExternalPriceComponent c w _),
    fetched_sends _ (fetched_callToContractItem c w _),
    fetched_sends _ (fetched_callToContractParty c w _), List.nil_append, List.cons_append]

/-- C2: when the parent fetch of `ContractItemCollection` returns a non-empty
list `r :: rs`, the pricing fetch succeeds, every `Send` succeeds and
`outputQueues` starts with `q`, the handler returns, and it makes exactly two
`Send` calls, both to `q`, tagged `ContractItemCollectionData` and then
`ContractItemExternalPriceComponentData`; the second result is fetched from the
field `ToContractItemExternalPriceComponent` of `r`, record 0 of the parent
result. -/
theorem ContractItemCollection_publishes_two (c : SAPAPICaller) (w : World) (itemID : String)
    (r : sap_api_output_formatter.ContractItemCollection)
    (rs : List sap_api_output_formatter.ContractItemCollection)
    (price : List sap_api_output_formatter.ToContractItemExternalPriceComponent)
    (q : String) (qs : List String)
    (hparent : (c.callContractSrvAPIRequirementContractItemCollection w
      "ContractItemCollectionData" itemID).res = .val (.ok (r :: rs)))
    (hprice : (c.callToContractItemExternalPriceComponent w
      r.ToContractItemExternalPriceComponent).res = .val (.ok price))
    (hsend : ∀ sendQueue payload, c.outputter.Send sendQueue payload = none)
    (hq : c.outputQueues = q :: qs) :
    (c.ContractItemCollection w itemID).res = .val () ∧
    sends (c.ContractItemCollection w itemID).trace =
      [(q, ⟨.ContractItemCollection (r :: rs), "ContractItemCollectionData"⟩, none),
       (q, ⟨.ToContractItemExternalPriceComponent price,
         "ContractItemExternalPriceComponentData"⟩, none)] ∧
    (c.ContractItemCollection w itemID).trace =
      (c.callContractSrvAPIRequirementContractItemCollection w
        "ContractItemCollectionData" itemID).trace ++
      [.send q ⟨.ContractItemCollection (r :: rs), "ContractItemCollectionData"⟩ none,
       .logInfo (.ContractItemCollection (r :: rs))] ++
      (c.callToContractItemExternalPriceComponent w
        r.ToContractItemExternalPriceComponent).trace ++
      [.send q ⟨.ToContractItemExternalPriceComponent price,
         "ContractItemExternalPriceComponentData"⟩ none,
       .logInfo (.ToContractItemExternalPriceComponent price)] := by
  have htrace : c.ContractItemCollection w itemID = ⟨
      (c.callContractSrvAPIRequirementContractItemCollection w
        "ContractItemCollectionData" itemID).trace ++
      [.send q ⟨.ContractItemCollection (r :: rs), "ContractItemCollectionData"⟩ none,
       .logInfo (.ContractItemCollection (r :: rs))] ++
      (c.callToContractItemExternalPriceComponent w
        r.ToContractItemExternalPriceComponent).trace ++
      [.send q ⟨.ToContractItemExternalPriceComponent price,
         "ContractItemExternalPriceComponentData"⟩ none,
       .logInfo (.ToContractItemExternalPriceComponent price)], .val ()⟩ := by
    rw [ContractItemCollection_eq_stage,
      stage_sent c _ _ _ _ (r :: rs) q qs hparent hq (hsend _ _)]
    simp only [itemDependents, index0, pure, Exec.bind_val, List.nil_append]
    rw [stage_sent c _ _ _ _ price q qs hprice hq (hsend _ _)]
    simp only [List.append_assoc, List.cons_append, List.nil_append, List.append_nil]
  refine ⟨by rw [htrace], ?_, by rw [htrace]⟩
  rw [htrace]
  simp only [sends_append, sends,
    fetched_sends _ (fetched_callContractItemCollection c w _ _),
    fetched_sends _ (fetched_callToContractItemExternalPriceComponent c w _),
    List.nil_append, List.cons_append]

/-! ## The dispatcher as a sequence of entries -/

theorem Exec.bind_assoc {α β γ : Type} (x : Exec α) (f : α → Exec β) (g : β → Exec γ) :
    Exec.bind (Exec.bind x f) g = Exec.bind x fun a => Exec.bind (f a) g := by
  rcases x with ⟨t, r⟩
  cases r with
  | val a =>
    simp only [Exec.bind_val]
    cases hfa : (f a).res with
    | val b => simp [Exec.bind, hfa]
    | panic m => simp [Exec.bind, hfa]
    | blocked => simp [Exec.bind, hfa]
  | panic m => rfl
  | blocked => rfl

theorem wgDone_pos (wg : Int) (h : 0 ≤ wg - 1) :
    wgDone wg = ⟨[.wgDone], .val (wg - 1)⟩ := by
  have : ¬ (wg - 1 < 0) := not_lt.mpr h
  simp [wgDone, bind, pure, emit, Exec.bind_val, this]

theorem entry_ContractCollection (c : SAPAPICaller) (w : World) (iD itemID name : String) :
    entry c w iD itemID name "ContractCollection" =
      Exec.bind (emit (.call "ContractCollection" iD)) fun _ =>
      Exec.bind (c.ContractCollection w iD) fun _ =>
      Exec.bind (emit (.ret "ContractCollection")) fun _ => emit .wgDone := rfl

theorem entry_ContractItemCollection (c : SAPAPICaller) (w : World)
    (iD itemID name : String) :
    entry c w iD itemID name "ContractItemCollection" =
      Exec.bind (emit (.call "ContractItemCollection" itemID)) fun _ =>
      Exec.bind (c.ContractItemCollection w itemID) fun _ =>
      Exec.bind (emit (.ret "ContractItemCollection")) fun _ => emit .wgDone := rfl

theorem entry_ContractName (c : SAPAPICaller) (w : World) (iD itemID name : String) :
    entry c w iD itemID name "ContractName" =
      Exec.bind (emit (.call "ContractName" name)) fun _ =>
      Exec.bind (c.ContractName w name) fun _ =>
      Exec.bind (emit (.ret "ContractName")) fun _ => emit .wgDone := rfl

theorem recognized_eq_false (fn : String) (h1 : ¬ fn = "ContractCollection")
    (h2 : ¬ fn = "ContractItemCollection") (h3 : ¬ fn = "ContractName") :
    recognized fn = false := by
  simp only [recognized, Bool.or_eq_false_iff, beq_eq_false_iff_ne, ne_eq]
  exact ⟨⟨h1, h2⟩, h3⟩

theorem entry_other (c : SAPAPICaller) (w : World) (iD itemID name fn : String)
    (h : recognized fn = false) : entry c w iD itemID name fn = emit .wgDone := by
  simp only [entry, h, Bool.false_eq_true, if_false]

theorem wrapped_handler (x : Exec Unit) (a b : Event) (wg : Int) (h : 0 ≤ wg - 1) :
    (Exec.bind (emit a) fun _ => Exec.bind x fun _ => Exec.bind (emit b) fun _ => wgDone wg) =
      Exec.bind
        (Exec.bind (emit a) fun _ => Exec.bind x fun _ => Exec.bind (emit b) fun _ =>
          emit .wgDone)
        fun _ => ⟨[], .val (wg - 1)⟩ := by
  rw [wgDone_pos wg h]
  rcases x with ⟨t, r⟩
  cases r <;> simp [Exec.bind, emit]

theorem switchFn_eq (c : SAPAPICaller) (w : World) (iD itemID name fn : String)
    (wg : Int) (h : 0 ≤ wg - 1) :
    switchFn c w iD itemID name fn wg =
      Exec.bind (entry c w iD itemID name fn) fun _ => ⟨[], .val (wg - 1)⟩ := by
  unfold switchFn
  simp only [bind]
  split
  · rw [entry_ContractCollection]
    exact wrapped_handler _ _ _ wg h
  · rw [entry_ContractItemCollection]
    exact wrapped_handler _ _ _ wg h
  · rw [entry_ContractName]
    exact wrapped_handler _ _ _ wg h
  · rename_i h1 h2 h3
    rw [entry_other c w iD itemID name fn (recognized_eq_false fn h1 h2 h3)]
    simp only [wgDone_pos wg h, Exec.bind_val, emit, List.append_nil]

theorem asyncLoop_eq_entries (c : SAPAPICaller) (w : World) (iD itemID name : String)
    (accepter : List String) (k : Int) (hk : 0 ≤ k) :
    asyncLoop c w iD itemID name accepter (accepter.length + k) =
      Exec.bind (entries c w iD itemID name accepter) fun _ => ⟨[], .val k⟩ := by
  induction accepter with
  | nil => simp [asyncLoop, entries, pure, Exec.bind_val]
  | cons fn rest ih =>
    have h : (0 : Int) ≤ ((fn :: rest).length + k) - 1 := by
      simp only [List.length_cons, Nat.cast_add, Nat.cast_one]
      omega
    have hrest : ((fn :: rest).length + k : Int) - 1 = rest.length + k := by
      simp only [List.length_cons, Nat.cast_add, Nat.cast_one]
      omega
    simp only [asyncLoop, bind, entries]
    rw [switchFn_eq c w iD itemID name fn _ h, Exec.bind_assoc, Exec.bind_assoc]
    congr 1
    funext _
    rw [Exec.bind_val, hrest, ih]
    simp

theorem wgWait_zero : wgWait 0 = emit .wgWait := by
  simp [wgWait, bind, pure, emit, Exec.bind_val]

theorem AsyncGetContract_eq_entries (c : SAPAPICaller) (w : World) (iD itemID name : String)
    (accepter : List String) :
    c.AsyncGetContract w iD itemID name accepter =
      Exec.bind (emit (.wgAdd accepter.length)) fun _ =>
      Exec.bind (entries c w iD itemID name accepter) fun _ => emit .wgWait := by
  have h := asyncLoop_eq_entries c w iD itemID name accepter 0 le_rfl
  rw [add_zero] at h
  simp only [SAPAPICaller.AsyncGetContract, bind, h, Exec.bind_assoc, Exec.bind_val,
    List.nil_append, wgWait_zero]

theorem handlerRun_handled (c : SAPAPICaller) (w : World) (iD itemID name fn : String) :
    ∃ tags, Handled (handlerRun c w iD itemID name fn) tags := by
  unfold handlerRun
  split
  · exact ⟨_, ContractCollection_handled c w iD⟩
  · exact ⟨_, ContractItemCollection_handled c w itemID⟩
  · exact ⟨_, ContractName_handled c w name⟩
  · exact ⟨_, pure_handled⟩

theorem handlerRun_other (c : SAPAPICaller) (w : World) (iD itemID name fn : String)
    (h : recognized fn = false) : handlerRun c w iD itemID name fn = pure () := by
  simp only [recognized, Bool.or_eq_false_iff, beq_eq_false_iff_ne, ne_eq] at h
  unfold handlerRun
  split
  · exact absurd rfl h.1.1
  · exact absurd rfl h.1.2
  · exact absurd rfl h.2
  · rfl

theorem calls_ofHandler (t : List Event) (h : ∀ e ∈ t, e.ofHandler = true) : calls t = [] := by
  induction t with
  | nil => rfl
  | cons e t ih =>
    have he := h e (List.mem_cons_self _ _)
    have ht := ih fun e' he' => h e' (List.mem_cons_of_mem _ he')
    cases e <;> simp_all [calls, Event.ofHandler]

theorem wgCounter_ofHandler (t : List Event) (h : ∀ e ∈ t, e.ofHandler = true) :
    wgCounter t = 0 := by
  induction t with
  | nil => rfl
  | cons e t ih =>
    have he := h e (List.mem_cons_self _ _)
    have ht := ih fun e' he' => h e' (List.mem_cons_of_mem _ he')
    cases e <;> simp_all [wgCounter, Event.ofHandler]

theorem count_wgDone_ofHandler (t : List Event) (h : ∀ e ∈ t, e.ofHandler = true) :
    t.count .wgDone = 0 := by
  rw [List.count_eq_zero]
  intro hmem
  have := h _ hmem
  simp [Event.ofHandler] at this

theorem wgCounter_nonpos (t : List Event) (h : ∀ e ∈ t, e.isAdd = false) :
    wgCounter t ≤ 0 := by
  induction t with
  | nil => simp [wgCounter]
  | cons e t ih =>
    have he := h e (List.mem_cons_self _ _)
    have ht := ih fun e' he' => h e' (List.mem_cons_of_mem _ he')
    cases e <;>
      first
      | (simp_all [wgCounter, Event.isAdd]; done)
      | (simp_all [wgCounter, Event.isAdd]; omega)

theorem entry_of_returns (c : SAPAPICaller) (w : World) (iD itemID name fn : String)
    (h : (handlerRun c w iD itemID name fn).res = .val ()) :
    entry c w iD itemID name fn = ⟨entryTrace c w iD itemID name fn, .val ()⟩ := by
  unfold entry entryTrace
  split
  · simp only [Exec.bind_of_val _ _ _ h, emit, Exec.bind_val, List.singleton_append,
      List.cons_append, List.nil_append]
  · rfl

theorem entries_of_return (c : SAPAPICaller) (w : World) (iD itemID name : String)
    (accepter : List String)
    (hok : ∀ fn ∈ accepter, (handlerRun c w iD itemID name fn).res = .val ()) :
    entries c w iD itemID name accepter =
      ⟨accepter.flatMap (entryTrace c w iD itemID name), .val ()⟩ := by
  induction accepter with
  | nil => rfl
  | cons fn rest ih =>
    have h1 := entry_of_returns c w iD itemID name fn (hok fn (List.mem_cons_self _ _))
    have h2 := ih fun fn' h' => hok fn' (List.mem_cons_of_mem _ h')
    simp only [entries, h1, h2, Exec.bind_val, List.flatMap_cons]

theorem AsyncGetContract_of_return (c : SAPAPICaller) (w : World) (iD itemID name : String)
    (accepter : List String)
    (hok : ∀ fn ∈ accepter, (handlerRun c w iD itemID name fn).res = .val ()) :
    c.AsyncGetContract w iD itemID name accepter =
      ⟨.wgAdd accepter.length ::
        (accepter.flatMap (entryTrace c w iD itemID name) ++ [.wgWait]), .val ()⟩ := by
  rw [AsyncGetContract_eq_entries, entries_of_return c w iD itemID name accepter hok]
  simp only [Exec.bind_val, emit, List.singleton_append]

theorem entryTrace_calls (c : SAPAPICaller) (w : World) (iD itemID name fn : String) :
    calls (entryTrace c w iD itemID name fn) =
      if recognized fn then [(fn, handlerArg iD itemID name fn)] else [] := by
  obtain ⟨tags, h⟩ := handlerRun_handled c w iD itemID name fn
  unfold entryTrace
  split
  · simp [calls, calls_append, calls_ofHandler _ h.events]
  · rfl

theorem entryTrace_wgCounter (c : SAPAPICaller) (w : World) (iD itemID name fn : String) :
    wgCounter (entryTrace c w iD itemID name fn) = -1 := by
  obtain ⟨tags, h⟩ := handlerRun_handled c w iD itemID name fn
  unfold entryTrace
  split
  · simp [wgCounter, wgCounter_append, wgCounter_ofHandler _ h.events]
  · rfl

theorem entryTrace_count (c : SAPAPICaller) (w : World) (iD itemID name fn : String) :
    (entryTrace c w iD itemID name fn).count .wgDone = 1 := by
  obtain ⟨tags, h⟩ := handlerRun_handled c w iD itemID name fn
  unfold entryTrace
  split
  · simp [List.count_cons, List.count_append, count_wgDone_ofHandler _ h.events]
  · rfl

theorem entryTrace_noAdd (c : SAPAPICaller) (w : World) (iD itemID name fn : String) :
    ∀ e ∈ entryTrace c w iD itemID name fn, e.isAdd = false := by
  obtain ⟨tags, h⟩ := handlerRun_handled c w iD itemID name fn
  intro e he
  unfold entryTrace at he
  split at he
  · simp only [List.mem_cons, List.mem_append, List.mem_singleton, List.not_mem_nil,
      or_false] at he
    rcases he with (he | he) | he | he
    · rw [he]; rfl
    · have := h.events e he
      cases e <;> simp_all [Event.ofHandler, Event.isAdd]
    · rw [he]; rfl
    · rw [he]; rfl
  · simp only [List.mem_singleton] at he
    rw [he]; rfl

theorem flatMap_calls (c : SAPAPICaller) (w : World) (iD itemID name : String)
    (accepter : List String) :
    calls (accepter.flatMap (entryTrace c w iD itemID name)) =
      (accepter.filter recognized).map fun fn => (fn, handlerArg iD itemID name fn) := by
  induction accepter with
  | nil => rfl
  | cons fn rest ih =>
    rw [List.flatMap_cons, calls_append, ih, entryTrace_calls]
    cases h : recognized fn <;> simp [List.filter_cons, h]

theorem flatMap_wgCounter (c : SAPAPICaller) (w : World) (iD itemID name : String)
    (accepter : List String) :
    wgCounter (accepter.flatMap (entryTrace c w iD itemID name)) = -(accepter.length : Int) := by
  induction accepter with
  | nil => rfl
  | cons fn rest ih =>
    rw [List.flatMap_cons, wgCounter_append, ih, entryTrace_wgCounter]
    simp only [List.length_cons, Nat.cast_add, Nat.cast_one]
    omega

theorem flatMap_count (c : SAPAPICaller) (w : World) (iD itemID name : String)
    (accepter : List String) :
    (accepter.flatMap (entryTrace c w iD itemID name)).count .wgDone = accepter.length := by
  induction accepter with
  | nil => rfl
  | cons fn rest ih =>
    rw [List.flatMap_cons, List.count_append, ih, entryTrace_count]
    simp only [List.length_cons]
    omega

theorem flatMap_noAdd (c : SAPAPICaller) (w : World) (iD itemID name : String)
    (accepter : List String) :
    ∀ e ∈ accepter.flatMap (entryTrace c w iD itemID name), e.isAdd = false := by
  intro e he
  rw [List.mem_flatMap] at he
  obtain ⟨fn, _, hfn⟩ := he
  exact entryTrace_noAdd c w iD itemID name fn e hfn

theorem entryTrace_sends (c : SAPAPICaller) (w : World) (iD itemID name fn : String) :
    sends (entryTrace c w iD itemID name fn) = sends (handlerRun c w iD itemID name fn).trace := by
  unfold entryTrace
  split
  · simp [sends, sends_append]
  · rename_i h
    simp only [Bool.not_eq_true] at h
    rw [handlerRun_other c w iD itemID name fn h]
    rfl

theorem flatMap_sends (c : SAPAPICaller) (w : World) (iD itemID name : String)
    (accepter : List String) :
    sends (accepter.flatMap (entryTrace c w iD itemID name)) =
      accepter.flatMap fun fn => sends (handlerRun c w iD itemID name fn).trace := by
  induction accepter with
  | nil => rfl
  | cons fn rest ih => rw [List.flatMap_cons, sends_append, ih, entryTrace_sends, List.flatMap_cons]

/-! ## The dispatcher -/

/-- C4: when no handler faults, `AsyncGetContract` returns (it neither faults
nor waits forever), and its events are: `wg.Add(len(accepter))`, then for each
entry of `accepter` in order either the call of its handler, the whole run of
the handler, its return and one `wg.Done()` (a recognized name) or one
`wg.Done()` alone (any other entry), then `wg.Wait()`.  So one handler is
called per occurrence of a recognized name, `Done` is called once per entry,
the counter is never negative and it is zero at `Wait`. -/
theorem AsyncGetContract_wait_group (c : SAPAPICaller) (w : World)
    (iD itemID name : String) (accepter : List String)
    (hok : ∀ fn ∈ accepter, (handlerRun c w iD itemID name fn).res = .val ()) :
    (c.AsyncGetContract w iD itemID name accepter).res = .val () ∧
    (c.AsyncGetContract w iD itemID name accepter).trace =
      .wgAdd accepter.length ::
        (accepter.flatMap (entryTrace c w iD itemID name) ++ [.wgWait]) ∧
    calls (c.AsyncGetContract w iD itemID name accepter).trace =
      (accepter.filter recognized).map (fun fn => (fn, handlerArg iD itemID name fn)) ∧
    (c.AsyncGetContract w iD itemID name accepter).trace.count .wgDone = accepter.length ∧
    (∀ pre, pre <+: (c.AsyncGetContract w iD itemID name accepter).trace →
      0 ≤ wgCounter pre) ∧
    wgCounter (c.AsyncGetContract w iD itemID name accepter).trace = 0 := by
  have hrun := AsyncGetContract_of_return c w iD itemID name accepter hok
  have hcount : wgCounter (accepter.flatMap (entryTrace c w iD itemID name) ++ [.wgWait]) =
      -(accepter.length : Int) := by
    rw [wgCounter_append, flatMap_wgCounter]
    simp [wgCounter]
  rw [hrun]
  refine ⟨rfl, rfl, ?_, ?_, ?_, ?_⟩
  · simp only [calls, calls_append, flatMap_calls, List.append_nil]
  · rw [List.count_cons, List.count_append, flatMap_count]
    simp
  · intro pre hpre
    obtain ⟨s, hs⟩ := hpre
    cases pre with
    | nil => simp [wgCounter]
    | cons e p =>
      simp only [List.cons_append, List.cons.injEq] at hs
      obtain ⟨he, hp⟩ := hs
      have hsplit := hcount
      rw [← hp, wgCounter_append] at hsplit
      have hs0 : wgCounter s ≤ 0 := by
        apply wgCounter_nonpos
        intro e' he'
        have hmem : e' ∈ accepter.flatMap (entryTrace c w iD itemID name) ++ [.wgWait] := by
          rw [← hp]
          exact List.mem_append_right _ he'
        rcases List.mem_append.mp hmem with h' | h'
        · exact flatMap_noAdd c w iD itemID name accepter e' h'
        · simp only [List.mem_singleton] at h'
          rw [h']
          rfl
      rw [he]
      simp only [wgCounter]
      omega
  · simp only [wgCounter, hcount]
    omega

theorem quiet_of_waitGroup (t : List Event) (h : ∀ e ∈ t, e.ofWaitGroup = true) :
    requests t = [] ∧ sends t = [] ∧ calls t = [] := by
  induction t with
  | nil => exact ⟨rfl, rfl, rfl⟩
  | cons e t ih =>
    have he := h e (List.mem_cons_self _ _)
    have ht := ih fun e' he' => h e' (List.mem_cons_of_mem _ he')
    cases e <;> simp_all [requests, sends, calls, Event.ofWaitGroup]

theorem entries_filter (c : SAPAPICaller) (w : World) (iD itemID name : String)
    (accepter : List String) :
    (entries c w iD itemID name accepter).res =
      (entries c w iD itemID name (accepter.filter recognized)).res ∧
    (entries c w iD itemID name accepter).trace.filter (fun e => !e.ofWaitGroup) =
      (entries c w iD itemID name (accepter.filter recognized)).trace.filter
        (fun e => !e.ofWaitGroup) := by
  induction accepter with
  | nil => exact ⟨rfl, rfl⟩
  | cons fn rest ih =>
    cases h : recognized fn with
    | false =>
      rw [List.filter_cons_of_neg (by simp [h])]
      simp only [entries, entry_other c w iD itemID name fn h, emit_bind]
      refine ⟨ih.1, ?_⟩
      rw [List.filter_cons_of_neg (by simp [Event.ofWaitGroup])]
      exact ih.2
    | true =>
      rw [List.filter_cons_of_pos (by simp [h])]
      simp only [entries]
      cases hres : (entry c w iD itemID name fn).res with
      | val u =>
        simp only [Exec.bind_of_val _ _ _ hres, List.filter_append]
        exact ⟨ih.1, by rw [ih.2]⟩
      | panic m =>
        have : entry c w iD itemID name fn =
            ⟨(entry c w iD itemID name fn).trace, .panic m⟩ := by rw [← hres]
        rw [this]
        exact ⟨rfl, rfl⟩
      | blocked =>
        have : entry c w iD itemID name fn =
            ⟨(entry c w iD itemID name fn).trace, .blocked⟩ := by rw [← hres]
        rw [this]
        exact ⟨rfl, rfl⟩

/-- C5: when no entry of `accepter` is a recognized name, `AsyncGetContract`
returns and does nothing but wait-group bookkeeping: no request, no `Send`, no
handler call.  For every `accepter`, the call ends as it does on the recognized
entries of `accepter` alone and, wait-group bookkeeping apart, with the same
events: the other entries add no handler call, no request and no `Send`. -/
theorem AsyncGetContract_ignores_unrecognized (c : SAPAPICaller) (w : World)
    (iD itemID name : String) (accepter : List String) :
    ((∀ fn ∈ accepter, recognized fn = false) →
      (c.AsyncGetContract w iD itemID name accepter).res = .val () ∧
      requests (c.AsyncGetContract w iD itemID name accepter).trace = [] ∧
      sends (c.AsyncGetContract w iD itemID name accepter).trace = [] ∧
      calls (c.AsyncGetContract w iD itemID name accepter).trace = [] ∧
      ∀ e ∈ (c.AsyncGetContract w iD itemID name accepter).trace, e.ofWaitGroup = true) ∧
    (c.AsyncGetContract w iD itemID name accepter).res =
      (c.AsyncGetContract w iD itemID name (accepter.filter recognized)).res ∧
    (c.AsyncGetContract w iD itemID name accepter).trace.filter (fun e => !e.ofWaitGroup) =
      (c.AsyncGetContract w iD itemID name (accepter.filter recognized)).trace.filter
        (fun e => !e.ofWaitGroup) := by
  refine ⟨?_, ?_⟩
  · intro hno
    have hok : ∀ fn ∈ accepter, (handlerRun c w iD itemID name fn).res = .val () := by
      intro fn hfn
      rw [handlerRun_other c w iD itemID name fn (hno fn hfn)]
      rfl
    have hwg : ∀ e ∈ (c.AsyncGetContract w iD itemID name accepter).trace,
        e.ofWaitGroup = true := by
      rw [AsyncGetContract_of_return c w iD itemID name accepter hok]
      intro e he
      simp only [List.mem_cons, List.mem_append, List.mem_flatMap, List.not_mem_nil,
        or_false] at he
      rcases he with he | ⟨fn, hfn, he⟩ | he
      · rw [he]; rfl
      · simp only [entryTrace, hno fn hfn, Bool.false_eq_true, if_false,
          List.mem_singleton] at he
        rw [he]; rfl
      · rw [he]; rfl
    obtain ⟨h1, h2, h3⟩ := quiet_of_waitGroup _ hwg
    refine ⟨?_, h1, h2, h3, hwg⟩
    rw [AsyncGetContract_of_return c w iD itemID name accepter hok]
  · rw [AsyncGetContract_eq_entries, AsyncGetContract_eq_entries]
    obtain ⟨hres, htrace⟩ := entries_filter c w iD itemID name accepter
    have ha : ∀ d, (!(Event.wgAdd d).ofWaitGroup) = false := fun _ => rfl
    have hw : (!Event.wgWait.ofWaitGroup) = false := rfl
    simp only [emit_bind]
    cases h : (entries c w iD itemID name accepter).res with
    | val u =>
      have h2 : (entries c w iD itemID name (accepter.filter recognized)).res = .val u := by
        rw [← hres, h]
      simp only [Exec.bind_of_val _ _ _ h, Exec.bind_of_val _ _ _ h2, emit,
        List.filter_cons, List.filter_append, htrace, ha, hw, Bool.false_eq_true, if_false,
        List.filter_nil, and_self]
    | panic m =>
      have h2 : (entries c w iD itemID name (accepter.filter recognized)).res = .panic m := by
        rw [← hres, h]
      have e1 : entries c w iD itemID name accepter =
          ⟨(entries c w iD itemID name accepter).trace, .panic m⟩ := by rw [← h]
      have e2 : entries c w iD itemID name (accepter.filter recognized) =
          ⟨(entries c w iD itemID name (accepter.filter recognized)).trace, .panic m⟩ := by
        rw [← h2]
      rw [e1, e2]
      simp only [Exec.bind_panic, List.filter_cons, htrace, ha, Bool.false_eq_true,
        if_false, and_self]
    | blocked =>
      have h2 : (entries c w iD itemID name (accepter.filter recognized)).res = .blocked := by
        rw [← hres, h]
      have e1 : entries c w iD itemID name accepter =
          ⟨(entries c w iD itemID name accepter).trace, .blocked⟩ := by rw [← h]
      have e2 : entries c w iD itemID name (accepter.filter recognized) =
          ⟨(entries c w iD itemID name (accepter.filter recognized)).trace, .blocked⟩ := by
        rw [← h2]
      rw [e1, e2]
      simp only [Exec.bind_blocked, List.filter_cons, htrace, ha, Bool.false_eq_true,
        if_false, and_self]

/-! ## Failures inside a handler -/

theorem stage_published_once {α β : Type} (c : SAPAPICaller)
    (fetch : Exec (Except String α)) (msg : α → Message) (function : String)
    (dep : Exec (Except String β)) (depMsg : β → Message) (depFunction : String)
    (next : β → Exec Unit) (after : α → Exec Unit) (data : α) (q : String)
    (qs : List String) (err : String) (hf : Fetched fetch) (hd : Fetched dep)
    (hafter : after data = stage c dep depMsg depFunction next)
    (h : fetch.res = .val (.ok data)) (hq : c.outputQueues = q :: qs)
    (hdep : dep.res = .val (.error err)) :
    (stage c fetch msg function after).res = .val () ∧
    sends (stage c fetch msg function after).trace =
      [(q, ⟨msg data, function⟩, c.outputter.Send q ⟨msg data, function⟩)] ∧
    (c.outputter.Send q ⟨msg data, function⟩ = none →
      (stage c fetch msg function after).trace =
        fetch.trace ++ [.send q ⟨msg data, function⟩ none, .logInfo (msg data)] ++
          dep.trace ++ [.logError err]) := by
  cases hs : c.outputter.Send q ⟨msg data, function⟩ with
  | some e =>
    rw [stage_send_failed c fetch msg function after data q qs e h hq hs]
    refine ⟨rfl, ?_, fun hne => by simp at hne⟩
    simp only [sends_append, sends, fetched_sends _ hf, List.nil_append]
  | none =>
    rw [stage_sent c fetch msg function after data q qs h hq hs, hafter,
      stage_error c dep depMsg depFunction next err hdep]
    refine ⟨rfl, ?_, fun _ => by simp⟩
    simp only [sends_append, sends, fetched_sends _ hf, fetched_sends _ hd, List.nil_append,
      List.append_nil]

/-- C6: in each of the three handlers a step that fails (a request, a
conversion or a `Send` that returns an error) is followed by exactly one entry
of the error log and by nothing else, and the handler returns; the error log
gets an entry only right after a failed step; so the tags published are an
initial part of the handler's tag sequence.  In particular, in a run that gets
to the pricing fetch (the parent fetch succeeds and there is a queue to publish
on) and in which the pricing fetch fails, the handler makes exactly one `Send`
call, that of the parent result, and returns; with that `Send` accepted, the
run is the parent fetch, the `Send`, the pricing fetch and the entry of the
error log.  All of this holds in every world, also with an empty parent
result. -/
theorem handlers_stop_at_first_failure (c : SAPAPICaller) (w : World)
    (iD itemID name : String) :
    StopsAtFirstFailure (c.ContractCollection w iD)
      ["ContractCollectionData", "ContractExternalPriceComponentData", "ContractItemData",
        "ContractPartyData"] ∧
    StopsAtFirstFailure (c.ContractItemCollection w itemID)
      ["ContractItemCollectionData", "ContractItemExternalPriceComponentData"] ∧
    StopsAtFirstFailure (c.ContractName w name)
      ["ContractNameData", "ContractExternalPriceComponentData", "ContractItemData",
        "ContractPartyData"] ∧
    (∀ r rs q qs err,
      (c.callContractSrvAPIRequirementContractCollection w "ContractCollectionData" iD).res =
        .val (.ok (r :: rs)) →
      c.outputQueues = q :: qs →
      (c.callToContractExternalPriceComponent w r.ToContractExternalPriceComponent).res =
        .val (.error err) →
      (c.ContractCollection w iD).res = .val () ∧
      sends (c.ContractCollection w iD).trace =
        [(q, ⟨.ContractCollection (r :: rs), "ContractCollectionData"⟩,
          c.outputter.Send q ⟨.ContractCollection (r :: rs), "ContractCollectionData"⟩)] ∧
      (c.outputter.Send q ⟨.ContractCollection (r :: rs), "ContractCollectionData"⟩ = none →
        (c.ContractCollection w iD).trace =
          (c.callContractSrvAPIRequirementContractCollection w
            "ContractCollectionData" iD).trace ++
          [.send q ⟨.ContractCollection (r :: rs), "ContractCollectionData"⟩ none,
           .logInfo (.ContractCollection (r :: rs))] ++
          (c.callToContractExternalPriceComponent w
            r.ToContractExternalPriceComponent).trace ++
          [.logError err])) ∧
    (∀ r rs q qs err,
      (c.callContractSrvAPIRequirementContractItemCollection w
        "ContractItemCollectionData" itemID).res = .val (.ok (r :: rs)) →
      c.outputQueues = q :: qs →
      (c.callToContractItemExternalPriceComponent w
        r.ToContractItemExternalPriceComponent).res = .val (.error err) →
      (c.ContractItemCollection w itemID).res = .val () ∧
      sends (c.ContractItemCollection w itemID).trace =
        [(q, ⟨.ContractItemCollection (r :: rs), "ContractItemCollectionData"⟩,
          c.outputter.Send q
            ⟨.ContractItemCollection (r :: rs), "ContractItemCollectionData"⟩)] ∧
      (c.outputter.Send q
          ⟨.ContractItemCollection (r :: rs), "ContractItemCollectionData"⟩ = none →
        (c.ContractItemCollection w itemID).trace =
          (c.callContractSrvAPIRequirementContractItemCollection w
            "ContractItemCollectionData" itemID).trace ++
          [.send q ⟨.ContractItemCollection (r :: rs), "ContractItemCollectionData"⟩ none,
           .logInfo (.ContractItemCollection (r :: rs))] ++
          (c.callToContractItemExternalPriceComponent w
            r.ToContractItemExternalPriceComponent).trace ++
          [.logError err])) ∧
    (∀ r rs q qs err,
      (c.callContractSrvAPIRequirementContractName w "ContractCollection" name).res =
        .val (.ok (r :: rs)) →
      c.outputQueues = q :: qs →
      (c.callToContractExternalPriceComponent w r.ToContractExternalPriceComponent).res =
        .val (.error err) →
      (c.ContractName w name).res = .val () ∧
      sends (c.ContractName w name).trace =
        [(q, ⟨.ContractCollection (r :: rs), "ContractNameData"⟩,
          c.outputter.Send q ⟨.ContractCollection (r :: rs), "ContractNameData"⟩)] ∧
      (c.outputter.Send q ⟨.ContractCollection (r :: rs), "ContractNameData"⟩ = none →
        (c.ContractName w name).trace =
          (c.callContractSrvAPIRequirementContractName w "ContractCollection" name).trace ++
          [.send q ⟨.ContractCollection (r :: rs), "ContractNameData"⟩ none,
           .logInfo (.ContractCollection (r :: rs))] ++
          (c.callToContractExternalPriceComponent w
            r.ToContractExternalPriceComponent).trace ++
          [.logError err])) := by
  refine ⟨handled_stops _ _ (ContractCollection_handled c w iD),
    handled_stops _ _ (ContractItemCollection_handled c w itemID),
    handled_stops _ _ (ContractName_handled c w name), ?_, ?_, ?_⟩
  · intro r rs q qs err hparent hq hprice
    rw [ContractCollection_eq_stage]
    exact stage_published_once c _ _ _ _ _ _ _ _ (r :: rs) q qs err
      (fetched_callContractCollection c w _ _)
      (fetched_callToContractExternalPriceComponent c w _) rfl hparent hq hprice
  · intro r rs q qs err hparent hq hprice
    rw [ContractItemCollection_eq_stage]
    exact stage_published_once c _ _ _ _ _ _ _ _ (r :: rs) q qs err
      (fetched_callContractItemCollection c w _ _)
      (fetched_callToContractItemExternalPriceComponent c w _) rfl hparent hq hprice
  · intro r rs q qs err hparent hq hprice
    rw [ContractName_eq_stage]
    exact stage_published_once c _ _ _ _ _ _ _ _ (r :: rs) q qs err
      (fetched_callContractName c w _ _)
      (fetched_callToContractExternalPriceComponent c w _) rfl hparent hq hprice

/-! ## The query builders -/

/-- C8: each query builder changes only the raw query of the request, to the
encoding of the old parameters followed by one parameter named `$filter`.  Its
value, before encoding, is `ID eq '` then `v` then `'` for the two identifier
builders and `substringof('` then `v` then `', Name)` for the name builder, with
`v` as it is; so `42` gives `ID eq '42'` and `Acme` gives
`substringof('Acme', Name)`. -/
theorem getQuery_adds_filter (c : SAPAPICaller) (w : World) (req : Request) (v : String) :
    c.getQueryWithContractCollection w req v =
      { req with
        URL := { req.URL with
          RawQuery := w.Encode (w.Query req.URL.RawQuery ++
            [("$filter", "ID eq '" ++ v ++ "'")]) } } ∧
    c.getQueryWithContractItemCollection w req v =
      { req with
        URL := { req.URL with
          RawQuery := w.Encode (w.Query req.URL.RawQuery ++
            [("$filter", "ID eq '" ++ v ++ "'")]) } } ∧
    c.getQueryWithContractName w req v =
      { req with
        URL := { req.URL with
          RawQuery := w.Encode (w.Query req.URL.RawQuery ++
            [("$filter", "substringof('" ++ v ++ "', Name)")]) } } ∧
    Sprintf "ID eq '%s'" ["42"] = "ID eq '42'" ∧
    Sprintf "substringof('%s', Name)" ["Acme"] = "substringof('Acme', Name)" :=
  ⟨rfl, rfl, rfl, rfl, rfl⟩

/-! ## Independence of the handlers -/

/-- C7, as amended: in a world whose answers depend only on what is asked (as
every `World` is), when no handler faults, `AsyncGetContract` returns, it calls
the handler of every recognized entry in order (a failed step in one handler
does not keep the next from running), and its `Send` calls are those each
entry's handler makes when run on its own, entry after entry. -/
theorem AsyncGetContract_handlers_independent (c : SAPAPICaller) (w : World)
    (iD itemID name : String) (accepter : List String)
    (hok : ∀ fn ∈ accepter, (handlerRun c w iD itemID name fn).res = .val ()) :
    (c.AsyncGetContract w iD itemID name accepter).res = .val () ∧
    calls (c.AsyncGetContract w iD itemID name accepter).trace =
      (accepter.filter recognized).map (fun fn => (fn, handlerArg iD itemID name fn)) ∧
    sends (c.AsyncGetContract w iD itemID name accepter).trace =
      accepter.flatMap fun fn => sends (handlerRun c w iD itemID name fn).trace := by
  rw [AsyncGetContract_of_return c w iD itemID name accepter hok]
  refine ⟨rfl, ?_, ?_⟩
  · simp only [calls, calls_append, flatMap_calls, List.append_nil]
  · simp only [sends, sends_append, flatMap_sends, List.append_nil]

/-! ## Dependent fetches -/

theorem requests_mono (a b : List Event) (h : a <+: b) : requests a <+: requests b := by
  obtain ⟨s, hs⟩ := h
  rw [← hs, requests_append]
  exact List.prefix_append _ _

theorem bind_trace_mono {α β : Type} (x : Exec α) (f : α → Exec β) :
    x.trace <+: (Exec.bind x f).trace := by
  rcases x with ⟨t, r⟩
  cases r with
  | val a => exact List.prefix_append _ _
  | panic m => exact List.prefix_refl _
  | blocked => exact List.prefix_refl _

theorem stage_requests_le {α : Type} (c : SAPAPICaller) (fetch : Exec (Except String α))
    (msg : α → Message) (function : String) (next : α → Exec Unit) (L : List Request)
    (hf : Fetched fetch)
    (hn : ∀ data, fetch.res = .val (.ok data) → requests (next data).trace <+: L) :
    requests (stage c fetch msg function next).trace <+: requests fetch.trace ++ L := by
  cases hf with
  | nilRequest m => simp [stage, Exec.bind_panic, requests]
  | transport req err e =>
    rw [stage_error c _ msg function next e rfl]
    simp [requests]
  | conversion req converter err e =>
    rw [stage_error c _ msg function next e rfl]
    simp [requests]
  | ok req converter data =>
    cases hq : c.outputQueues with
    | nil =>
      rw [stage_no_queue c _ msg function next data rfl hq]
      exact List.prefix_append _ _
    | cons q qs =>
      cases hs : c.outputter.Send q ⟨msg data, function⟩ with
      | some err =>
        rw [stage_send_failed c _ msg function next data q qs err rfl hq hs]
        simp [requests]
      | none =>
        rw [stage_sent c _ msg function next data q qs rfl hq hs]
        have := hn data rfl
        simpa [requests, List.prefix_append_right_inj] using this

theorem dependents_requests_le (c : SAPAPICaller) (w : World)
    (r : sap_api_output_formatter.ContractCollection)
    (rs : List sap_api_output_formatter.ContractCollection) :
    requests (dependents c w (r :: rs)).trace <+:
      requests (c.callToContractExternalPriceComponent w
        r.ToContractExternalPriceComponent).trace ++
      (requests (c.callToContractItem w r.ToContractItem).trace ++
        requests (c.callToContractParty w r.ToContractParty).trace) := by
  simp only [dependents, index0, pure, Exec.bind_val, List.nil_append]
  refine stage_requests_le c _ _ _ _ _ (fetched_callToContractExternalPriceComponent c w _)
    fun _ _ => ?_
  refine stage_requests_le c _ _ _ _ _ (fetched_callToContractItem c w _) fun _ _ => ?_
  have := stage_requests_le c _ Message.ToContractParty "ContractPartyData"
    (fun _ => pure ()) [] (fetched_callToContractParty c w r.ToContractParty)
    (fun _ _ => List.prefix_refl _)
  simpa using this

theorem itemDependents_requests_le (c : SAPAPICaller) (w : World)
    (r : sap_api_output_formatter.ContractItemCollection)
    (rs : List sap_api_output_formatter.ContractItemCollection) :
    requests (itemDependents c w (r :: rs)).trace <+:
      requests (c.callToContractItemExternalPriceComponent w
        r.ToContractItemExternalPriceComponent).trace := by
  simp only [itemDependents, index0, pure, Exec.bind_val, List.nil_append]
  have := stage_requests_le c _ Message.ToContractItemExternalPriceComponent
    "ContractItemExternalPriceComponentData" (fun _ => pure ()) []
    (fetched_callToContractItemExternalPriceComponent c w
      r.ToContractItemExternalPriceComponent)
    (fun _ _ => List.prefix_refl _)
  simpa using this

theorem stage_requests_parent_only {α : Type} (c : SAPAPICaller)
    (fetch : Exec (Except String (List α))) (msg : List α → Message) (function : String)
    (next : List α → Exec Unit) (hf : Fetched fetch)
    (hempty : ∀ r rs, fetch.res ≠ .val (.ok (r :: rs))) (hnext : (next []).trace = []) :
    requests (stage c fetch msg function next).trace = requests fetch.trace := by
  have hle := stage_requests_le c fetch msg function next [] hf (by
    intro data hdata
    cases data with
    | nil => rw [hnext]; exact List.prefix_refl _
    | cons r rs => exact absurd hdata (hempty r rs))
  rw [List.append_nil] at hle
  have hge : requests fetch.trace <+: requests (stage c fetch msg function next).trace := by
    unfold stage
    exact requests_mono _ _ (bind_trace_mono _ _)
  exact List.Sublist.antisymm hle.sublist hge.sublist

theorem stage_requests_of_record {α : Type} (c : SAPAPICaller)
    (fetch : Exec (Except String (List α))) (msg : List α → Message) (function : String)
    (next : List α → Exec Unit) (L : List Request) (r : α) (rs : List α)
    (hf : Fetched fetch) (h : fetch.res = .val (.ok (r :: rs)))
    (hn : requests (next (r :: rs)).trace <+: L) :
    requests (stage c fetch msg function next).trace <+: requests fetch.trace ++ L := by
  refine stage_requests_le c fetch msg function next L hf fun data hdata => ?_
  rw [h] at hdata
  simp only [Res.val.injEq, Except.ok.injEq] at hdata
  rw [← hdata]
  exact hn

theorem header_of_caller (apiKey : String) :
    Header.Set (Header.Set [] "APIKey" apiKey) "Accept" "application/json" =
      [("Apikey", apiKey), ("Accept", "application/json")] := by
  have h1 : CanonicalMIMEHeaderKey "APIKey" = "Apikey" := by decide
  have h2 : CanonicalMIMEHeaderKey "Accept" = "Accept" := by decide
  simp [Header.Set, h1, h2]

theorem callToContractExternalPriceComponent_requests (c : SAPAPICaller) (w : World) (url : String) (u : URL)
    (h : w.Parse url = some u) :
    requests (c.callToContractExternalPriceComponent w url).trace =
      [⟨"GET", u, [("Apikey", c.apiKey), ("Accept", "application/json")]⟩] := by
  unfold SAPAPICaller.callToContractExternalPriceComponent
  simp only [bind, pure, NewRequest, h, SAPAPICaller.setHeaderAPIKeyAccept, Exec.bind_val,
    httpDo, List.nil_append]
  cases w.Do _ with
  | error err => simp [Exec.bind_val, requests, header_of_caller]
  | ok byteArray =>
    simp only [Exec.bind_val, runConvert]
    cases w.ConvertToToContractExternalPriceComponent byteArray <;> simp [Exec.bind_val, requests, header_of_caller]

theorem callToContractItem_requests (c : SAPAPICaller) (w : World) (url : String) (u : URL)
    (h : w.Parse url = some u) :
    requests (c.callToContractItem w url).trace =
      [⟨"GET", u, [("Apikey", c.apiKey), ("Accept", "application/json")]⟩] := by
  unfold SAPAPICaller.callToContractItem
  simp only [bind, pure, NewRequest, h, SAPAPICaller.setHeaderAPIKeyAccept, Exec.bind_val,
    httpDo, List.nil_append]
  cases w.Do _ with
  | error err => simp [Exec.bind_val, requests, header_of_caller]
  | ok byteArray =>
    simp only [Exec.bind_val, runConvert]
    cases w.ConvertToToContractItem byteArray <;> simp [Exec.bind_val, requests, header_of_caller]

theorem callToContractParty_requests (c : SAPAPICaller) (w : World) (url : String) (u : URL)
    (h : w.Parse url = some u) :
    requests (c.callToContractParty w url).trace =
      [⟨"GET", u, [("Apikey", c.apiKey), ("Accept", "application/json")]⟩] := by
  unfold SAPAPICaller.callToContractParty
  simp only [bind, pure, NewRequest, h, SAPAPICaller.setHeaderAPIKeyAccept, Exec.bind_val,
    httpDo, List.nil_append]
  cases w.Do _ with
  | error err => simp [Exec.bind_val, requests, header_of_caller]
  | ok byteArray =>
    simp only [Exec.bind_val, runConvert]
    cases w.ConvertToToContractParty byteArray <;> simp [Exec.bind_val, requests, header_of_caller]

theorem callToContractItemExternalPriceComponent_requests (c : SAPAPICaller) (w : World) (url : String) (u : URL)
    (h : w.Parse url = some u) :
    requests (c.callToContractItemExternalPriceComponent w url).trace =
      [⟨"GET", u, [("Apikey", c.apiKey), ("Accept", "application/json")]⟩] := by
  unfold SAPAPICaller.callToContractItemExternalPriceComponent
  simp only [bind, pure, NewRequest, h, SAPAPICaller.setHeaderAPIKeyAccept, Exec.bind_val,
    httpDo, List.nil_append]
  cases w.Do _ with
  | error err => simp [Exec.bind_val, requests, header_of_caller]
  | ok byteArray =>
    simp only [Exec.bind_val, runConvert]
    cases w.ConvertToToContractItemExternalPriceComponent byteArray <;> simp [Exec.bind_val, requests, header_of_caller]

theorem stage_trace_mono {α : Type} (c : SAPAPICaller) (fetch : Exec (Except String α))
    (msg : α → Message) (function : String) (next : α → Exec Unit) :
    fetch.trace <+: (stage c fetch msg function next).trace := by
  unfold stage
  exact bind_trace_mono _ _

theorem dependents_cons (c : SAPAPICaller) (w : World)
    (r : sap_api_output_formatter.ContractCollection)
    (rs : List sap_api_output_formatter.ContractCollection) :
    dependents c w (r :: rs) =
      stage c (c.callToContractExternalPriceComponent w r.ToContractExternalPriceComponent)
        Message.ToContractExternalPriceComponent "ContractExternalPriceComponentData" fun _ =>
      stage c (c.callToContractItem w r.ToContractItem)
        Message.ToContractItem "ContractItemData" fun _ =>
      stage c (c.callToContractParty w r.ToContractParty)
        Message.ToContractParty "ContractPartyData" fun _ => pure () := rfl

theorem itemDependents_cons (c : SAPAPICaller) (w : World)
    (r : sap_api_output_formatter.ContractItemCollection)
    (rs : List sap_api_output_formatter.ContractItemCollection) :
    itemDependents c w (r :: rs) =
      stage c
        (c.callToContractItemExternalPriceComponent w r.ToContractItemExternalPriceComponent)
        Message.ToContractItemExternalPriceComponent "ContractItemExternalPriceComponentData"
        fun _ => pure () := rfl

theorem dependents_reach (c : SAPAPICaller) (w : World)
    (r : sap_api_output_formatter.ContractCollection)
    (rs : List sap_api_output_formatter.ContractCollection) (q : String) (qs : List String)
    (hq : c.outputQueues = q :: qs) :
    (c.callToContractExternalPriceComponent w r.ToContractExternalPriceComponent).trace <+:
      (dependents c w (r :: rs)).trace ∧
    (∀ price,
      (c.callToContractExternalPriceComponent w r.ToContractExternalPriceComponent).res =
        .val (.ok price) →
      c.outputter.Send q ⟨.ToContractExternalPriceComponent price,
        "ContractExternalPriceComponentData"⟩ = none →
      (c.callToContractExternalPriceComponent w r.ToContractExternalPriceComponent).trace ++
        [.send q ⟨.ToContractExternalPriceComponent price,
            "ContractExternalPriceComponentData"⟩ none,
          .logInfo (.ToContractExternalPriceComponent price)] ++
        (c.callToContractItem w r.ToContractItem).trace <+:
        (dependents c w (r :: rs)).trace) ∧
    (∀ price items,
      (c.callToContractExternalPriceComponent w r.ToContractExternalPriceComponent).res =
        .val (.ok price) →
      c.outputter.Send q ⟨.ToContractExternalPriceComponent price,
        "ContractExternalPriceComponentData"⟩ = none →
      (c.callToContractItem w r.ToContractItem).res = .val (.ok items) →
      c.outputter.Send q ⟨.ToContractItem items, "ContractItemData"⟩ = none →
      (c.callToContractExternalPriceComponent w r.ToContractExternalPriceComponent).trace ++
        [.send q ⟨.ToContractExternalPriceComponent price,
            "ContractExternalPriceComponentData"⟩ none,
          .logInfo (.ToContractExternalPriceComponent price)] ++
        (c.callToContractItem w r.ToContractItem).trace ++
        [.send q ⟨.ToContractItem items, "ContractItemData"⟩ none,
          .logInfo (.ToContractItem items)] ++
        (c.callToContractParty w r.ToContractParty).trace <+:
        (dependents c w (r :: rs)).trace) := by
  rw [dependents_cons]
  refine ⟨stage_trace_mono _ _ _ _ _, ?_, ?_⟩
  · intro price hprice hs
    rw [stage_sent c _ _ _ _ price q qs hprice hq hs]
    simp only [List.append_assoc, List.cons_append, List.nil_append,
      List.prefix_append_right_inj, List.cons_prefix_cons, true_and]
    exact stage_trace_mono _ _ _ _ _
  · intro price items hprice hs hitems hs2
    rw [stage_sent c _ _ _ _ price q qs hprice hq hs,
      stage_sent c _ _ _ _ items q qs hitems hq hs2]
    simp only [List.append_assoc, List.cons_append, List.nil_append,
      List.prefix_append_right_inj, List.cons_prefix_cons, true_and]
    exact stage_trace_mono _ _ _ _ _

theorem dependents_nil (c : SAPAPICaller) (w : World) : (dependents c w []).trace = [] := rfl

theorem itemDependents_nil (c : SAPAPICaller) (w : World) :
    (itemDependents c w []).trace = [] := rfl

theorem stage_fetchesEveryLink (c : SAPAPICaller) (w : World)
    (parent : Exec (Except String (List sap_api_output_formatter.ContractCollection)))
    (function : String) :
    FetchesEveryLink c w parent function
      (stage c parent Message.ContractCollection function (dependents c w)) := by
  intro r rs q qs h hq hs
  rw [stage_sent c _ _ _ _ (r :: rs) q qs h hq hs]
  obtain ⟨hA, hB, hC⟩ := dependents_reach c w r rs q qs hq
  refine ⟨?_, ?_, ?_⟩
  · simpa only [published, List.append_assoc, List.cons_append, List.nil_append,
      List.prefix_append_right_inj, List.cons_prefix_cons, true_and] using hA
  · intro price hprice hs1
    simpa only [published, List.append_assoc, List.cons_append, List.nil_append,
      List.prefix_append_right_inj, List.cons_prefix_cons, true_and] using hB price hprice hs1
  · intro price items hprice hs1 hitems hs2
    simpa only [published, List.append_assoc, List.cons_append, List.nil_append,
      List.prefix_append_right_inj, List.cons_prefix_cons, true_and]
      using hC price items hprice hs1 hitems hs2

theorem stage_item_pricing (c : SAPAPICaller) (w : World)
    (parent : Exec (Except String (List sap_api_output_formatter.ContractItemCollection)))
    (function : String) (r : sap_api_output_formatter.ContractItemCollection)
    (rs : List sap_api_output_formatter.ContractItemCollection) (q : String)
    (qs : List String) (h : parent.res = .val (.ok (r :: rs)))
    (hq : c.outputQueues = q :: qs)
    (hs : c.outputter.Send q ⟨.ContractItemCollection (r :: rs), function⟩ = none) :
    parent.trace ++ published q (.ContractItemCollection (r :: rs)) function ++
        (c.callToContractItemExternalPriceComponent w
          r.ToContractItemExternalPriceComponent).trace <+:
      (stage c parent Message.ContractItemCollection function (itemDependents c w)).trace := by
  rw [stage_sent c _ _ _ _ (r :: rs) q qs h hq hs, itemDependents_cons]
  simp only [published, List.append_assoc, List.cons_append, List.nil_append,
    List.prefix_append_right_inj, List.cons_prefix_cons, true_and]
  exact stage_trace_mono _ _ _ _ _

/-- C9, as amended: in every handler a dependent fetch is attempted only if the
parent result has at least one record: otherwise the only request of the run is
the parent's.  With a parent result `r :: rs` the requests of the run are, in
order, an initial part of the parent's request followed by those of the fetches
on the link fields of `r`.  Each dependent fetch is made on the link of `r` as
soon as the result before it is published, whatever the link holds: pricing
after the parent, items after pricing, parties after items (`FetchesEveryLink`
for the handlers by identifier and by name, and the pricing fetch of
`ContractItemCollection`).  And a fetch hands to the HTTP client the request
built from the URL it is given whenever that URL parses, the empty string
included: nothing checks that a link is non-empty. -/
theorem dependent_fetch_needs_parent_record (c : SAPAPICaller) (w : World)
    (iD itemID name : String) :
    (((∀ r rs, (c.callContractSrvAPIRequirementContractCollection w
          "ContractCollectionData" iD).res ≠ .val (.ok (r :: rs))) →
        requests (c.ContractCollection w iD).trace =
          requests (c.callContractSrvAPIRequirementContractCollection w
            "ContractCollectionData" iD).trace) ∧
      (∀ r rs, (c.callContractSrvAPIRequirementContractCollection w
          "ContractCollectionData" iD).res = .val (.ok (r :: rs)) →
        requests (c.ContractCollection w iD).trace <+:
          requests (c.callContractSrvAPIRequirementContractCollection w
            "ContractCollectionData" iD).trace ++
          (requests (c.callToContractExternalPriceComponent w
            r.ToContractExternalPriceComponent).trace ++
          (requests (c.callToContractItem w r.ToContractItem).trace ++
            requests (c.callToContractParty w r.ToContractParty).trace))) ∧
      FetchesEveryLink c w
        (c.callContractSrvAPIRequirementContractCollection w "ContractCollectionData" iD)
        "ContractCollectionData" (c.ContractCollection w iD)) ∧
    (((∀ r rs, (c.callContractSrvAPIRequirementContractItemCollection w
          "ContractItemCollectionData" itemID).res ≠ .val (.ok (r :: rs))) →
        requests (c.ContractItemCollection w itemID).trace =
          requests (c.callContractSrvAPIRequirementContractItemCollection w
            "ContractItemCollectionData" itemID).trace) ∧
      (∀ r rs, (c.callContractSrvAPIRequirementContractItemCollection w
          "ContractItemCollectionData" itemID).res = .val (.ok (r :: rs)) →
        requests (c.ContractItemCollection w itemID).trace <+:
          requests (c.callContractSrvAPIRequirementContractItemCollection w
            "ContractItemCollectionData" itemID).trace ++
          requests (c.callToContractItemExternalPriceComponent w
            r.ToContractItemExternalPriceComponent).trace) ∧
      (∀ r rs q qs, (c.callContractSrvAPIRequirementContractItemCollection w
          "ContractItemCollectionData" itemID).res = .val (.ok (r :: rs)) →
        c.outputQueues = q :: qs →
        c.outputter.Send q
          ⟨.ContractItemCollection (r :: rs), "ContractItemCollectionData"⟩ = none →
        (c.callContractSrvAPIRequirementContractItemCollection w
            "ContractItemCollectionData" itemID).trace ++
          published q (.ContractItemCollection (r :: rs)) "ContractItemCollectionData" ++
          (c.callToContractItemExternalPriceComponent w
            r.ToContractItemExternalPriceComponent).trace <+:
          (c.ContractItemCollection w itemID).trace)) ∧
    (((∀ r rs, (c.callContractSrvAPIRequirementContractName w
          "ContractCollection" name).res ≠ .val (.ok (r :: rs))) →
        requests (c.ContractName w name).trace =
          requests (c.callContractSrvAPIRequirementContractName w
            "ContractCollection" name).trace) ∧
      (∀ r rs, (c.callContractSrvAPIRequirementContractName w
          "ContractCollection" name).res = .val (.ok (r :: rs)) →
        requests (c.ContractName w name).trace <+:
          requests (c.callContractSrvAPIRequirementContractName w
            "ContractCollection" name).trace ++
          (requests (c.callToContractExternalPriceComponent w
            r.ToContractExternalPriceComponent).trace ++
          (requests (c.callToContractItem w r.ToContractItem).trace ++
            requests (c.callToContractParty w r.ToContractParty).trace))) ∧
      FetchesEveryLink c w
        (c.callContractSrvAPIRequirementContractName w "ContractCollection" name)
        "ContractNameData" (c.ContractName w name)) ∧
    (∀ url u, w.Parse url = some u →
      requests (c.callToContractExternalPriceComponent w url).trace =
        [⟨"GET", u, [("Apikey", c.apiKey), ("Accept", "application/json")]⟩] ∧
      requests (c.callToContractItem w url).trace =
        [⟨"GET", u, [("Apikey", c.apiKey), ("Accept", "application/json")]⟩] ∧
      requests (c.callToContractParty w url).trace =
        [⟨"GET", u, [("Apikey", c.apiKey), ("Accept", "application/json")]⟩] ∧
      requests (c.callToContractItemExternalPriceComponent w url).trace =
        [⟨"GET", u, [("Apikey", c.apiKey), ("Accept", "application/json")]⟩]) := by
  refine ⟨⟨?_, ?_, ?_⟩, ⟨?_, ?_, ?_⟩, ⟨?_, ?_, ?_⟩, ?_⟩
  · intro h
    rw [ContractCollection_eq_stage]
    exact stage_requests_parent_only c _ _ _ _ (fetched_callContractCollection c w _ _) h
      (dependents_nil c w)
  · intro r rs h
    rw [ContractCollection_eq_stage]
    exact stage_requests_of_record c _ _ _ _ _ r rs (fetched_callContractCollection c w _ _)
      h (dependents_requests_le c w r rs)
  · rw [ContractCollection_eq_stage]
    exact stage_fetchesEveryLink c w _ _
  · intro h
    rw [ContractItemCollection_eq_stage]
    exact stage_requests_parent_only c _ _ _ _ (fetched_callContractItemCollection c w _ _) h
      (itemDependents_nil c w)
  · intro r rs h
    rw [ContractItemCollection_eq_stage]
    exact stage_requests_of_record c _ _ _ _ _ r rs
      (fetched_callContractItemCollection c w _ _) h (itemDependents_requests_le c w r rs)
  · intro r rs q qs h hq hs
    rw [ContractItemCollection_eq_stage]
    exact stage_item_pricing c w _ _ r rs q qs h hq hs
  · intro h
    rw [ContractName_eq_stage]
    exact stage_requests_parent_only c _ _ _ _ (fetched_callContractName c w _ _) h
      (dependents_nil c w)
  · intro r rs h
    rw [ContractName_eq_stage]
    exact stage_requests_of_record c _ _ _ _ _ r rs (fetched_callContractName c w _ _)
      h (dependents_requests_le c w r rs)
  · rw [ContractName_eq_stage]
    exact stage_fetchesEveryLink c w _ _
  · intro url u h
    exact ⟨callToContractExternalPriceComponent_requests c w url u h,
      callToContractItem_requests c w url u h, callToContractParty_requests c w url u h,
      callToContractItemExternalPriceComponent_requests c w url u h⟩

/-! ## An empty parent result -/

theorem stage_empty_parent {α : Type} (c : SAPAPICaller)
    (fetch : Exec (Except String (List α))) (msg : List α → Message) (function : String)
    (next : List α → Exec Unit) (fault : String) (hf : Fetched fetch)
    (hnext : next [] = ⟨[], .panic fault⟩) (h : fetch.res = .val (.ok [])) :
    requests (stage c fetch msg function next).trace = requests fetch.trace ∧
    ∀ q qs, c.outputQueues = q :: qs →
      sends (stage c fetch msg function next).trace =
        [(q, ⟨msg [], function⟩, c.outputter.Send q ⟨msg [], function⟩)] ∧
      (c.outputter.Send q ⟨msg [], function⟩ = none →
        (stage c fetch msg function next).res = .panic fault ∧
        (stage c fetch msg function next).trace =
          fetch.trace ++ published q (msg []) function) := by
  refine ⟨?_, ?_⟩
  · refine stage_requests_parent_only c fetch msg function next hf ?_ (by rw [hnext])
    intro r rs hr
    rw [h] at hr
    simp at hr
  · intro q qs hq
    cases hs : c.outputter.Send q ⟨msg [], function⟩ with
    | some e =>
      rw [stage_send_failed c fetch msg function next [] q qs e h hq hs]
      refine ⟨?_, fun hne => by simp at hne⟩
      simp only [sends_append, sends, fetched_sends _ hf, List.nil_append]
    | none =>
      rw [stage_sent c fetch msg function next [] q qs h hq hs, hnext]
      refine ⟨?_, fun _ => ⟨rfl, rfl⟩⟩
      simp only [sends_append, sends, fetched_sends _ hf, List.nil_append]

/-- C3, as amended: when the parent fetch of a handler succeeds with zero
records, the handler makes no request but the parent's; with a queue to publish
on it makes exactly one `Send` call, that of the empty parent result; and once
that `Send` is accepted the run is the parent fetch, the `Send` and the `Info`
entry, and it ends in the fault of the index-0 access (index out of range [0]
with length 0): nothing is logged as an error and the handler does not return.
This holds for `ContractCollection`, `ContractItemCollection` and
`ContractName`. -/
theorem empty_parent_result_faults (c : SAPAPICaller) (w : World)
    (iD itemID name : String) :
    ((c.callContractSrvAPIRequirementContractCollection w "ContractCollectionData" iD).res =
        .val (.ok []) →
      requests (c.ContractCollection w iD).trace =
        requests (c.callContractSrvAPIRequirementContractCollection w
          "ContractCollectionData" iD).trace ∧
      ∀ q qs, c.outputQueues = q :: qs →
        sends (c.ContractCollection w iD).trace =
          [(q, ⟨.ContractCollection [], "ContractCollectionData"⟩,
            c.outputter.Send q ⟨.ContractCollection [], "ContractCollectionData"⟩)] ∧
        (c.outputter.Send q ⟨.ContractCollection [], "ContractCollectionData"⟩ = none →
          (c.ContractCollection w iD).res =
            .panic "runtime error: index out of range [0] with length 0" ∧
          (c.ContractCollection w iD).trace =
            (c.callContractSrvAPIRequirementContractCollection w
              "ContractCollectionData" iD).trace ++
            published q (.ContractCollection []) "ContractCollectionData")) ∧
    ((c.callContractSrvAPIRequirementContractItemCollection w
        "ContractItemCollectionData" itemID).res = .val (.ok []) →
      requests (c.ContractItemCollection w itemID).trace =
        requests (c.callContractSrvAPIRequirementContractItemCollection w
          "ContractItemCollectionData" itemID).trace ∧
      ∀ q qs, c.outputQueues = q :: qs →
        sends (c.ContractItemCollection w itemID).trace =
          [(q, ⟨.ContractItemCollection [], "ContractItemCollectionData"⟩,
            c.outputter.Send q ⟨.ContractItemCollection [], "ContractItemCollectionData"⟩)] ∧
        (c.outputter.Send q ⟨.ContractItemCollection [], "ContractItemCollectionData"⟩ =
            none →
          (c.ContractItemCollection w itemID).res =
            .panic "runtime error: index out of range [0] with length 0" ∧
          (c.ContractItemCollection w itemID).trace =
            (c.callContractSrvAPIRequirementContractItemCollection w
              "ContractItemCollectionData" itemID).trace ++
            published q (.ContractItemCollection []) "ContractItemCollectionData")) ∧
    ((c.callContractSrvAPIRequirementContractName w "ContractCollection" name).res =
        .val (.ok []) →
      requests (c.ContractName w name).trace =
        requests (c.callContractSrvAPIRequirementContractName w
          "ContractCollection" name).trace ∧
      ∀ q qs, c.outputQueues = q :: qs →
        sends (c.ContractName w name).trace =
          [(q, ⟨.ContractCollection [], "ContractNameData"⟩,
            c.outputter.Send q ⟨.ContractCollection [], "ContractNameData"⟩)] ∧
        (c.outputter.Send q ⟨.ContractCollection [], "ContractNameData"⟩ = none →
          (c.ContractName w name).res =
            .panic "runtime error: index out of range [0] with length 0" ∧
          (c.ContractName w name).trace =
            (c.callContractSrvAPIRequirementContractName w "ContractCollection" name).trace ++
            published q (.ContractCollection []) "ContractNameData")) := by
  refine ⟨?_, ?_, ?_⟩
  · intro h
    rw [ContractCollection_eq_stage]
    exact stage_empty_parent c _ _ _ _ _ (fetched_callContractCollection c w _ _) rfl h
  · intro h
    rw [ContractItemCollection_eq_stage]
    exact stage_empty_parent c _ _ _ _ _ (fetched_callContractItemCollection c w _ _) rfl h
  · intro h
    rw [ContractName_eq_stage]
    exact stage_empty_parent c _ _ _ _ _ (fetched_callContractName c w _ _) rfl h

/-! ## The handlers by identifier and by name -/

/-- C10, as amended: `ContractName` and `ContractCollection` are the same
stage on the same dependents, and differ only in the parent fetch and in the
parent's tag.  When both parent fetches return the same list `data` and both
parent results are published, the two runs go on with the same events, those of
`dependents c w data`, and end the same way.  These events publish, in this
order, an initial part of `ContractExternalPriceComponentData`,
`ContractItemData`, `ContractPartyData`, and request, in this order, an initial
part of the pricing, items and parties links of record 0 of `data`. -/
theorem ContractName_same_dependents (c : SAPAPICaller) (w : World) (iD name : String) :
    c.ContractCollection w iD =
      stage c (c.callContractSrvAPIRequirementContractCollection w "ContractCollectionData" iD)
        Message.ContractCollection "ContractCollectionData" (dependents c w) ∧
    c.ContractName w name =
      stage c (c.callContractSrvAPIRequirementContractName w "ContractCollection" name)
        Message.ContractCollection "ContractNameData" (dependents c w) ∧
    (∀ data q qs,
      (c.callContractSrvAPIRequirementContractCollection w "ContractCollectionData" iD).res =
        .val (.ok data) →
      (c.callContractSrvAPIRequirementContractName w "ContractCollection" name).res =
        .val (.ok data) →
      c.outputQueues = q :: qs →
      c.outputter.Send q ⟨.ContractCollection data, "ContractCollectionData"⟩ = none →
      c.outputter.Send q ⟨.ContractCollection data, "ContractNameData"⟩ = none →
      (c.ContractCollection w iD).trace =
        (c.callContractSrvAPIRequirementContractCollection w
          "ContractCollectionData" iD).trace ++
        [.send q ⟨.ContractCollection data, "ContractCollectionData"⟩ none,
         .logInfo (.ContractCollection data)] ++ (dependents c w data).trace ∧
      (c.ContractName w name).trace =
        (c.callContractSrvAPIRequirementContractName w "ContractCollection" name).trace ++
        [.send q ⟨.ContractCollection data, "ContractNameData"⟩ none,
         .logInfo (.ContractCollection data)] ++ (dependents c w data).trace ∧
      (c.ContractCollection w iD).res = (dependents c w data).res ∧
      (c.ContractName w name).res = (dependents c w data).res) ∧
    (∀ data, sendTags (dependents c w data).trace <+:
      ["ContractExternalPriceComponentData", "ContractItemData", "ContractPartyData"]) ∧
    (∀ r rs, requests (dependents c w (r :: rs)).trace <+:
      requests (c.callToContractExternalPriceComponent w
        r.ToContractExternalPriceComponent).trace ++
      (requests (c.callToContractItem w r.ToContractItem).trace ++
        requests (c.callToContractParty w r.ToContractParty).trace)) := by
  refine ⟨ContractCollection_eq_stage c w iD, ContractName_eq_stage c w name, ?_,
    fun data => (dependents_handled c w data).tags, dependents_requests_le c w⟩
  intro data q qs h1 h2 hq hs1 hs2
  rw [ContractCollection_eq_stage, ContractName_eq_stage,
    stage_sent c _ _ _ _ data q qs h1 hq hs1, stage_sent c _ _ _ _ data q qs h2 hq hs2]
  simp

/-! ## Examples -/

/-- C1 at `exampleCaller`, `exampleWorld` and `C100`: four `Send` calls. -/
theorem ContractCollection_publishes_four_witness :
    sends (exampleCaller.ContractCollection exampleWorld "C100").trace =
      [("queue-to", ⟨.ContractCollection [contractC100], "ContractCollectionData"⟩, none),
       ("queue-to", ⟨.ToContractExternalPriceComponent [⟨[("Price", "10")]⟩],
         "ContractExternalPriceComponentData"⟩, none),
       ("queue-to", ⟨.ToContractItem [⟨[("ItemID", "10")]⟩], "ContractItemData"⟩, none),
       ("queue-to", ⟨.ToContractParty [⟨[("PartyID", "P1")]⟩], "ContractPartyData"⟩, none)] :=
  (ContractCollection_publishes_four exampleCaller exampleWorld "C100" contractC100 []
    [⟨[("Price", "10")]⟩] [⟨[("ItemID", "10")]⟩] [⟨[("PartyID", "P1")]⟩] "queue-to" []
    rfl rfl rfl rfl (fun _ _ => rfl) rfl).2.1

/-- C2 at `exampleCaller`, `exampleWorld` and `I200`: two `Send` calls. -/
theorem ContractItemCollection_publishes_two_witness :
    sends (exampleCaller.ContractItemCollection exampleWorld "I200").trace =
      [("queue-to", ⟨.ContractItemCollection [itemI200], "ContractItemCollectionData"⟩, none),
       ("queue-to", ⟨.ToContractItemExternalPriceComponent [⟨[("Price", "20")]⟩],
         "ContractItemExternalPriceComponentData"⟩, none)] :=
  (ContractItemCollection_publishes_two exampleCaller exampleWorld "I200" itemI200 []
    [⟨[("Price", "20")]⟩] "queue-to" [] rfl rfl (fun _ _ => rfl) rfl).2.1

/-- C3, the claim at an empty parent result: each of the three handlers
publishes the empty parent result, makes no further request, and then faults on
the index-0 access; the fault is not logged and is not turned into an error
return, and it ends `AsyncGetContract` too. -/
theorem empty_parent_faults :
    ((exampleCaller.ContractCollection emptyParentWorld "C100").res =
        .panic "runtime error: index out of range [0] with length 0" ∧
      sends (exampleCaller.ContractCollection emptyParentWorld "C100").trace =
        [("queue-to", ⟨.ContractCollection [], "ContractCollectionData"⟩, none)] ∧
      (requests (exampleCaller.ContractCollection emptyParentWorld "C100").trace).length = 1 ∧
      (exampleCaller.ContractCollection emptyParentWorld "C100").trace.any
        Event.isLogError = false) ∧
    ((exampleCaller.ContractItemCollection emptyParentWorld "I200").res =
        .panic "runtime error: index out of range [0] with length 0" ∧
      sends (exampleCaller.ContractItemCollection emptyParentWorld "I200").trace =
        [("queue-to", ⟨.ContractItemCollection [], "ContractItemCollectionData"⟩, none)] ∧
      (requests (exampleCaller.ContractItemCollection emptyParentWorld "I200").trace).length =
        1 ∧
      (exampleCaller.ContractItemCollection emptyParentWorld "I200").trace.any
        Event.isLogError = false) ∧
    ((exampleCaller.ContractName emptyParentWorld "Acme").res =
        .panic "runtime error: index out of range [0] with length 0" ∧
      sends (exampleCaller.ContractName emptyParentWorld "Acme").trace =
        [("queue-to", ⟨.ContractCollection [], "ContractNameData"⟩, none)] ∧
      (requests (exampleCaller.ContractName emptyParentWorld "Acme").trace).length = 1 ∧
      (exampleCaller.ContractName emptyParentWorld "Acme").trace.any
        Event.isLogError = false) ∧
    (exampleCaller.AsyncGetContract emptyParentWorld "C100" "I200" "Acme"
      ["ContractCollection"]).res =
      .panic "runtime error: index out of range [0] with length 0" := by
  refine ⟨⟨rfl, rfl, rfl, rfl⟩, ⟨rfl, rfl, rfl, rfl⟩, ⟨rfl, rfl, rfl, rfl⟩, rfl⟩

/-- C3 as amended, at `exampleCaller` and `emptyParentWorld`: the run of
`ContractName` is the parent fetch, the publication of the empty result and the
fault. -/
theorem empty_parent_result_faults_witness :
    (exampleCaller.ContractName emptyParentWorld "Acme").res =
      .panic "runtime error: index out of range [0] with length 0" ∧
    (exampleCaller.ContractName emptyParentWorld "Acme").trace =
      (exampleCaller.callContractSrvAPIRequirementContractName emptyParentWorld
        "ContractCollection" "Acme").trace ++
      published "queue-to" (.ContractCollection []) "ContractNameData" :=
  (((empty_parent_result_faults exampleCaller emptyParentWorld "C100" "I200" "Acme").2.2
    rfl).2 "queue-to" [] rfl).2 rfl

/-- C4 at `exampleCaller` and `pricingFailsWorld`, with an unknown entry and a
repeated one: three handlers are called and the call returns. -/
theorem AsyncGetContract_wait_group_witness :
    (exampleCaller.AsyncGetContract pricingFailsWorld "C100" "I200" "Acme"
      ["ContractName", "Unknown", "ContractItemCollection", "ContractName"]).res = .val () ∧
    calls (exampleCaller.AsyncGetContract pricingFailsWorld "C100" "I200" "Acme"
      ["ContractName", "Unknown", "ContractItemCollection", "ContractName"]).trace =
      [("ContractName", "Acme"), ("ContractItemCollection", "I200"),
        ("ContractName", "Acme")] :=
  have h := AsyncGetContract_wait_group exampleCaller pricingFailsWorld "C100" "I200" "Acme"
    ["ContractName", "Unknown", "ContractItemCollection", "ContractName"] (by
      intro fn hfn
      simp only [List.mem_cons, List.mem_singleton, List.not_mem_nil, or_false] at hfn
      rcases hfn with rfl | rfl | rfl | rfl <;> rfl)
  ⟨h.1, h.2.2.1⟩

/-- C5 at `exampleCaller` and `exampleWorld` with two unknown entries. -/
theorem AsyncGetContract_ignores_unrecognized_witness :
    (exampleCaller.AsyncGetContract exampleWorld "C100" "I200" "Acme"
      ["Unknown", "contractname"]).res = .val () ∧
    requests (exampleCaller.AsyncGetContract exampleWorld "C100" "I200" "Acme"
      ["Unknown", "contractname"]).trace = [] ∧
    sends (exampleCaller.AsyncGetContract exampleWorld "C100" "I200" "Acme"
      ["Unknown", "contractname"]).trace = [] :=
  have h := (AsyncGetContract_ignores_unrecognized exampleCaller exampleWorld "C100" "I200"
    "Acme" ["Unknown", "contractname"]).1 (by
      intro fn hfn
      simp only [List.mem_cons, List.mem_singleton, List.not_mem_nil, or_false] at hfn
      rcases hfn with rfl | rfl <;> rfl)
  ⟨h.1, h.2.1, h.2.2.1⟩

/-- C6 at `exampleCaller` and `pricingFailsWorld`: the parent result is the
only thing published. -/
theorem handlers_stop_at_first_failure_witness :
    sends (exampleCaller.ContractCollection pricingFailsWorld "C100").trace =
      [("queue-to", ⟨.ContractCollection [contractC100], "ContractCollectionData"⟩, none)] :=
  ((handlers_stop_at_first_failure exampleCaller pricingFailsWorld "C100" "I200" "Acme").2.2.2.1
    contractC100 [] "queue-to" [] "convert error: unexpected end of JSON input"
    rfl rfl rfl).2.1

/-- C7, the claim at a caller without output queue: no handler meets an empty
parent result, and yet the first handler faults on `outputQueues[0]`, the
second handler is never called, and `AsyncGetContract` does not return. -/
theorem no_queue_stops_dispatch :
    (noQueueCaller.callContractSrvAPIRequirementContractCollection exampleWorld
      "ContractCollectionData" "C100").res = .val (.ok [contractC100]) ∧
    (noQueueCaller.callContractSrvAPIRequirementContractItemCollection exampleWorld
      "ContractItemCollectionData" "I200").res = .val (.ok [itemI200]) ∧
    (noQueueCaller.AsyncGetContract exampleWorld "C100" "I200" "Acme"
      ["ContractCollection", "ContractItemCollection"]).res =
      .panic "runtime error: index out of range [0] with length 0" ∧
    calls (noQueueCaller.AsyncGetContract exampleWorld "C100" "I200" "Acme"
      ["ContractCollection", "ContractItemCollection"]).trace =
      [("ContractCollection", "C100")] :=
  ⟨rfl, rfl, rfl, rfl⟩

/-- C7 as amended, at `exampleCaller` and `pricingFailsWorld`: the pricing
failure in the first handler does not keep the second from publishing. -/
theorem AsyncGetContract_handlers_independent_witness :
    sends (exampleCaller.AsyncGetContract pricingFailsWorld "C100" "I200" "Acme"
      ["ContractCollection", "ContractItemCollection"]).trace =
      [("queue-to", ⟨.ContractCollection [contractC100], "ContractCollectionData"⟩, none),
       ("queue-to", ⟨.ContractItemCollection [itemI200], "ContractItemCollectionData"⟩,
         none)] :=
  (AsyncGetContract_handlers_independent exampleCaller pricingFailsWorld "C100" "I200" "Acme"
    ["ContractCollection", "ContractItemCollection"] (by
      intro fn hfn
      simp only [List.mem_cons, List.mem_singleton, List.not_mem_nil, or_false] at hfn
      rcases hfn with rfl | rfl <;> rfl)).2.2

/-- C9, the claim at parent records with an empty link: the fetch on the empty
link is attempted all the same.  With the pricing link empty the second request
handed to the HTTP client is the one for the empty URL, and its failure is what
the handler logs; with the items link empty the third request is the one for
the empty URL, and with the parties link empty the fourth. -/
theorem empty_link_is_fetched :
    (exampleCaller.callContractSrvAPIRequirementContractCollection emptyLinkWorld
      "ContractCollectionData" "C100").res =
      .val (.ok [{ contractC100 with ToContractExternalPriceComponent := "" }]) ∧
    (requests (exampleCaller.ContractCollection emptyLinkWorld "C100").trace).map
        (fun req => (req.Method, req.URL.raw)) =
      [("GET", "https://sap.example/c4codataapi/ContractCollectionData"), ("GET", "")] ∧
    (exampleCaller.ContractCollection emptyLinkWorld "C100").trace.getLast? =
      some (.logError "API request error: unsupported protocol scheme") ∧
    (requests (exampleCaller.ContractItemCollection emptyLinkWorld "I200").trace).map
        (fun req => (req.Method, req.URL.raw)) =
      [("GET", "https://sap.example/c4codataapi/ContractItemCollectionData"), ("GET", "")] ∧
    (requests (exampleCaller.ContractCollection emptyItemsLinkWorld "C100").trace).map
        (fun req => (req.Method, req.URL.raw)) =
      [("GET", "https://sap.example/c4codataapi/ContractCollectionData"),
        ("GET", "https://sap.example/pricing"), ("GET", "")] ∧
    (requests (exampleCaller.ContractName emptyPartiesLinkWorld "Acme").trace).map
        (fun req => (req.Method, req.URL.raw)) =
      [("GET", "https://sap.example/c4codataapi/ContractCollection"),
        ("GET", "https://sap.example/pricing"), ("GET", "https://sap.example/items"),
        ("GET", "")] :=
  ⟨rfl, rfl, rfl, rfl, rfl, rfl⟩

/-- C9 as amended, at `emptyItemsLinkWorld` and `emptyPartiesLinkWorld`: the
run of `ContractCollection` holds the items fetch on the empty items link, and
the run of `ContractName` the parties fetch on the empty parties link. -/
theorem dependent_fetch_needs_parent_record_witness :
    ((exampleCaller.callContractSrvAPIRequirementContractCollection emptyItemsLinkWorld
          "ContractCollectionData" "C100").trace ++
        published "queue-to" (.ContractCollection [{ contractC100 with ToContractItem := "" }])
          "ContractCollectionData" ++
        (exampleCaller.callToContractExternalPriceComponent emptyItemsLinkWorld
          "https://sap.example/pricing").trace ++
        published "queue-to" (.ToContractExternalPriceComponent [⟨[("Price", "10")]⟩])
          "ContractExternalPriceComponentData" ++
        (exampleCaller.callToContractItem emptyItemsLinkWorld "").trace <+:
      (exampleCaller.ContractCollection emptyItemsLinkWorld "C100").trace) ∧
    ((exampleCaller.callContractSrvAPIRequirementContractName emptyPartiesLinkWorld
          "ContractCollection" "Acme").trace ++
        published "queue-to" (.ContractCollection [{ contractC100 with ToContractParty := "" }])
          "ContractNameData" ++
        (exampleCaller.callToContractExternalPriceComponent emptyPartiesLinkWorld
          "https://sap.example/pricing").trace ++
        published "queue-to" (.ToContractExternalPriceComponent [⟨[("Price", "10")]⟩])
          "ContractExternalPriceComponentData" ++
        (exampleCaller.callToContractItem emptyPartiesLinkWorld
          "https://sap.example/items").trace ++
        published "queue-to" (.ToContractItem [⟨[("ItemID", "10")]⟩]) "ContractItemData" ++
        (exampleCaller.callToContractParty emptyPartiesLinkWorld "").trace <+:
      (exampleCaller.ContractName emptyPartiesLinkWorld "Acme").trace) ∧
    requests (exampleCaller.callToContractItem emptyItemsLinkWorld "").trace =
      [⟨"GET", ⟨"", ""⟩, [("Apikey", "key"), ("Accept", "application/json")]⟩] :=
  ⟨((dependent_fetch_needs_parent_record exampleCaller emptyItemsLinkWorld "C100" "I200"
      "Acme").1.2.2 { contractC100 with ToContractItem := "" } [] "queue-to" []
      rfl rfl rfl).2.1 [⟨[("Price", "10")]⟩] rfl rfl,
    ((dependent_fetch_needs_parent_record exampleCaller emptyPartiesLinkWorld "C100" "I200"
      "Acme").2.2.1.2.2 { contractC100 with ToContractParty := "" } [] "queue-to" []
      rfl rfl rfl).2.2 [⟨[("Price", "10")]⟩] [⟨[("ItemID", "10")]⟩] rfl rfl rfl rfl,
    ((dependent_fetch_needs_parent_record exampleCaller emptyItemsLinkWorld "C100" "I200"
      "Acme").2.2.2 "" ⟨"", ""⟩ rfl).2.1⟩

/-- C10, the claim at `exampleCaller` and `exampleWorld`: before any filter is
added, the parent request of `ContractCollection` is for the path
`ContractCollectionData` and that of `ContractName` for the path
`ContractCollection`. -/
theorem parent_requests_differ_in_path :
    (requests (exampleCaller.ContractCollection exampleWorld "C100").trace).head?.map
        (fun req => req.URL.raw) =
      some "https://sap.example/c4codataapi/ContractCollectionData" ∧
    (requests (exampleCaller.ContractName exampleWorld "C100").trace).head?.map
        (fun req => req.URL.raw) =
      some "https://sap.example/c4codataapi/ContractCollection" ∧
    "https://sap.example/c4codataapi/ContractCollectionData" ≠
      "https://sap.example/c4codataapi/ContractCollection" :=
  ⟨rfl, rfl, by decide⟩

/-- C10 as amended, at `exampleCaller` and `exampleWorld`: after the parent
result, both handlers go on with the same events. -/
theorem ContractName_same_dependents_witness :
    (exampleCaller.ContractCollection exampleWorld "C100").trace =
      (exampleCaller.callContractSrvAPIRequirementContractCollection exampleWorld
        "ContractCollectionData" "C100").trace ++
      [.send "queue-to" ⟨.ContractCollection [contractC100], "ContractCollectionData"⟩ none,
       .logInfo (.ContractCollection [contractC100])] ++
      (dependents exampleCaller exampleWorld [contractC100]).trace ∧
    (exampleCaller.ContractName exampleWorld "Acme").trace =
      (exampleCaller.callContractSrvAPIRequirementContractName exampleWorld
        "ContractCollection" "Acme").trace ++
      [.send "queue-to" ⟨.ContractCollection [contractC100], "ContractNameData"⟩ none,
       .logInfo (.ContractCollection [contractC100])] ++
      (dependents exampleCaller exampleWorld [contractC100]).trace :=
  have h := (ContractName_same_dependents exampleCaller exampleWorld "C100" "Acme").2.2.1
    [contractC100] "queue-to" [] rfl rfl rfl rfl rfl
  ⟨h.1, h.2.1⟩

end sap_api_caller
